import Mathlib

/-!
# libela: the dispatch facade, the backend registry and the source state of
# the two shipped backends

A shallow embedding of `src/src/ela.c`, `src/src/ela_libevent.c` and
`src/src/ela_cf.c`.

Conventions of the embedding:

* a C pointer is an address, a natural number, and `NULL` is `0`;
* `uint32_t` flag words are natural numbers; `~m` on a 32-bit word is
  `0xFFFFFFFF ^^^ m`;
* a function that mutates `*src` takes the structure and returns the new one;
* what an external library (libc, libevent, CoreFoundation) answers is an
  explicit argument of the function that asks for it;
* a C `double` is its exact value `m * 2 ^ e`, and each operation on doubles
  rounds its exact result to the nearest double (IEEE 754 binary64, ties to
  even, one rounding for each operation of the C expression);
* a function in which the process can be terminated returns `Except`: the
  error carries the state in which the process stopped;
* a callback and `source_free` act on a state that holds one source, what the
  backend can observe of the underlying loop, and the trace of the handler
  calls and of `free(src)`; the code of the handler is an argument.
-/

namespace Ela

/-! ## `include/ela/ela.h` -/

/-- A C pointer: an address, `0` being `NULL`. -/
abbrev Ptr := Nat

/-- The null pointer. -/
def NULL : Ptr := 0

/-- Macro `#define ELA_EVENT_READABLE 1` -/
def ELA_EVENT_READABLE : Nat := 1

/-- Macro `#define ELA_EVENT_WRITABLE 2` -/
def ELA_EVENT_WRITABLE : Nat := 2

/-- Macro `#define ELA_EVENT_TIMEOUT 4` -/
def ELA_EVENT_TIMEOUT : Nat := 4

/-- Macro `#define ELA_EVENT_ONCE 8` -/
def ELA_EVENT_ONCE : Nat := 8

/-- Type `typedef int ela_error_t;` with `0` meaning no error. -/
abbrev ela_error_t := Int

/-- Constant `ENOENT` of `<errno.h>` (value on Linux and Darwin). -/
def ENOENT : ela_error_t := 2

/-- Constant `ENOMEM` of `<errno.h>` (value on Linux and Darwin). -/
def ENOMEM : ela_error_t := 12

/-- Constant `ECANCELED` of `<errno.h>` (value on Linux; Darwin has 89). -/
def ECANCELED : ela_error_t := 125

/-- Structure `struct timeval`: seconds and microseconds. -/
structure timeval where
  tv_sec : Int
  tv_usec : Int
deriving DecidableEq, Repr

/-- Bitwise complement of a 32-bit word, C's `~m` on `uint32_t`. -/
def not32 (m : Nat) : Nat := 0xFFFFFFFF ^^^ m

/-- The libc `strcmp`: zero when the two strings are equal, negative when
the first comes first in the lexicographic order, positive otherwise. -/
def strcmp (a b : String) : Int :=
  if a = b then 0 else if a.data < b.data then -1 else 1

/-! ## C arithmetic on `double` -/

/-- A finite value of the C type `double` (IEEE 754 binary64): the number
`m * 2 ^ e`, kept with `m` odd, or with `m = 0` and `e = 0`. -/
structure Double where
  m : Int
  e : Int
deriving DecidableEq, Repr

namespace Double

/-- The number of binary digits of `n` (`fuel` bounds the search; `n` itself
is always enough). -/
def bitlen : Nat → Nat → Nat
  | 0, _ => 0
  | fuel + 1, n => if n = 0 then 0 else bitlen fuel (n / 2) + 1

/-- Removal of the trailing zero digits of a significand `q`, the exponent
being raised by one for each. -/
def strip : Nat → Nat → Int → Nat × Int
  | 0, q, e => (q, e)
  | fuel + 1, q, e =>
    if q ≠ 0 ∧ q % 2 = 0 then strip fuel (q / 2) (e + 1) else (q, e)

/-- Rounding of the exact number `m * 2 ^ e` to the nearest `double`, ties to
the even significand: a significand of at most 53 digits and an exponent of
the last digit of at least `-1074` (numbers beyond the largest `double` are
not modelled). -/
def round (m : Int) (e : Int) : Double :=
  let a := m.natAbs
  if a = 0 then ⟨0, 0⟩
  else
    let bits : Int := (bitlen a a : Int)
    let e0 : Int := if bits - 53 ≤ 0 then e else e + (bits - 53)
    let e1 : Int := if e0 ≤ -1074 then -1074 else e0
    let drop : Nat := (e1 - e).toNat
    let q := a / 2 ^ drop
    let r := a % 2 ^ drop
    let q :=
      if 2 * r > 2 ^ drop ∨ (2 * r = 2 ^ drop ∧ q % 2 = 1) then q + 1 else q
    let n := strip 64 q e1
    if n.1 = 0 then ⟨0, 0⟩
    else ⟨if m < 0 then -(n.1 : Int) else (n.1 : Int), n.2⟩

/-- The sum `x + y` of two doubles: the exact sum, rounded. -/
def add (x y : Double) : Double :=
  let e := if x.e ≤ y.e then x.e else y.e
  round (x.m * ((2 ^ (x.e - e).toNat : Nat) : Int)
    + y.m * ((2 ^ (y.e - e).toNat : Nat) : Int)) e

/-- The product `x * y` of two doubles: the exact product, rounded. -/
def mul (x y : Double) : Double :=
  round (x.m * y.m) (x.e + y.e)

/-- The conversion `(double)n` of an integer. -/
def ofInt (n : Int) : Double := round n 0

/-- The constant `1e-6`: the double nearest to one millionth,
`0x1.0c6f7a0b5ed8dp-20`. -/
def micro : Double := ⟨4722366482869645, -72⟩

end Double

/-- A numeral read as a `double`. -/
instance (n : Nat) : OfNat Double n := ⟨Double.ofInt n⟩

/-! ## `include/ela/backend.h` -/

/-- Structure `struct ela_el_backend`: the operations of a backend, each acting on the
state `σ` of the process. The context and the source are passed by address,
a `const struct timeval *` by the value it points to (`none` for `NULL`). -/
structure ela_el_backend (σ : Type) where
  source_alloc : Ptr → Ptr → Ptr → Ptr → σ → ela_error_t × σ
  source_free : Ptr → Ptr → σ → σ
  set_fd : Ptr → Ptr → Int → Nat → σ → ela_error_t × σ
  set_timeout : Ptr → Ptr → Option timeval → Nat → σ → ela_error_t × σ
  add : Ptr → Ptr → σ → ela_error_t × σ
  remove : Ptr → Ptr → σ → ela_error_t × σ
  exit : Ptr → σ → σ
  run : Ptr → σ → σ
  close : Ptr → σ → σ
  name : String
  create : σ → Ptr × σ

/-- Structure `struct ela_el` as seen through a pointer `ctx`: the address itself and
the backend `ctx->backend` points to. -/
structure ela_el (σ : Type) where
  addr : Ptr
  backend : ela_el_backend σ

/-! ## `src/ela.c`: the registry -/

/-- Macro `#define REGISTRY_SIZE 8` -/
def REGISTRY_SIZE : Nat := 8

/-- Global `static const struct ela_el_backend *registry[REGISTRY_SIZE]`: eight
slots holding the address of a backend descriptor, or `NULL`. -/
abbrev Registry := Fin REGISTRY_SIZE → Ptr

/-- The initial value `= {0}` of the registry. -/
def Registry.empty : Registry := fun _ => NULL

/-- The `for` loop of `ela_register`, `n` iterations being left to run from
index `i`. -/
def ela_register_loop (backend : Ptr) : Nat → Nat → Registry → Registry
  | 0, _, registry => registry
  | n + 1, i, registry =>
    if h : i < REGISTRY_SIZE then
      if registry ⟨i, h⟩ ≠ NULL then
        ela_register_loop backend n (i + 1) registry
      else if registry ⟨i, h⟩ = backend then
        registry
      else
        Function.update registry ⟨i, h⟩ backend
    else registry

/-- Function `void ela_register(const struct ela_el_backend *backend)` -/
def ela_register (backend : Ptr) (registry : Registry) : Registry :=
  ela_register_loop backend REGISTRY_SIZE 0 registry

/-- The first `for` loop of `ela_create` (taken when `name` is not `NULL`):
`some r` when the loop returns `r`, `none` when it runs to its end. -/
def ela_create_by_name {σ : Type} (mem : Ptr → ela_el_backend σ)
    (registry : Registry) (name : String) (w : σ) : Nat → Nat → Option (Ptr × σ)
  | 0, _ => none
  | n + 1, i =>
    if h : i < REGISTRY_SIZE then
      if registry ⟨i, h⟩ = NULL then
        ela_create_by_name mem registry name w n (i + 1)
      else if strcmp (mem (registry ⟨i, h⟩)).name name ≠ 0 then
        ela_create_by_name mem registry name w n (i + 1)
      else
        some ((mem (registry ⟨i, h⟩)).create w)
    else none

/-- The second `for` loop of `ela_create`. -/
def ela_create_first {σ : Type} (mem : Ptr → ela_el_backend σ)
    (registry : Registry) (w : σ) : Nat → Nat → Option (Ptr × σ)
  | 0, _ => none
  | n + 1, i =>
    if h : i < REGISTRY_SIZE then
      if registry ⟨i, h⟩ = NULL then
        ela_create_first mem registry w n (i + 1)
      else
        some ((mem (registry ⟨i, h⟩)).create w)
    else none

/-- Function `struct ela_el *ela_create(const char *name)`. `mem` is the memory
holding the backend descriptors the registry points to; the result is the
returned pointer and the state the constructor (if any was called) left. -/
def ela_create {σ : Type} (mem : Ptr → ela_el_backend σ) (registry : Registry)
    (name : Option String) (w : σ) : Ptr × σ :=
  let by_name :=
    match name with
    | some n => ela_create_by_name mem registry n w REGISTRY_SIZE 0
    | none => none
  match by_name with
  | some r => r
  | none =>
    match ela_create_first mem registry w REGISTRY_SIZE 0 with
    | some r => r
    | none => (NULL, w)

/-! ## `src/ela.c`: the dispatch facade -/

/-- One line printed by the `DBG` macro: `"%s(%p, %p) : %d\n"` with the
function name, the context, the source (absent in `ela_source_alloc`, whose
format is `"%s(%p) : %d\n"`) and the error code. -/
structure DbgLine where
  func : String
  ctx : Ptr
  src : Option Ptr
  err : ela_error_t
deriving DecidableEq, Repr

/-- The process as the facade sees it: the state `st` the backend operations
act on, and the lines printed on the standard output by `DBG`. -/
structure Process (σ : Type) where
  st : σ
  out : List DbgLine

/-- Macro `# define DBG(a, ...) printf(a, __VA_ARGS__)` -/
def DBG {σ : Type} (line : DbgLine) (p : Process σ) : Process σ :=
  { p with out := p.out ++ [line] }

/-- Function `ela_error_t ela_set_fd(ctx, src, fd, flags)` -/
def ela_set_fd {σ : Type} (ctx : ela_el σ) (src : Ptr) (fd : Int) (flags : Nat)
    (p : Process σ) : ela_error_t × Process σ :=
  let r := ctx.backend.set_fd ctx.addr src fd flags p.st
  let err := r.1
  let p1 : Process σ := { p with st := r.2 }
  if err ≠ 0 then (err, DBG ⟨"ela_set_fd", ctx.addr, some src, err⟩ p1)
  else (err, p1)

/-- Function `ela_error_t ela_set_timeout(ctx, src, tv, flags)` -/
def ela_set_timeout {σ : Type} (ctx : ela_el σ) (src : Ptr)
    (tv : Option timeval) (flags : Nat) (p : Process σ) :
    ela_error_t × Process σ :=
  let r := ctx.backend.set_timeout ctx.addr src tv flags p.st
  let err := r.1
  let p1 : Process σ := { p with st := r.2 }
  if err ≠ 0 then (err, DBG ⟨"ela_set_timeout", ctx.addr, some src, err⟩ p1)
  else (err, p1)

/-- Function `ela_error_t ela_add(ctx, src)` -/
def ela_add {σ : Type} (ctx : ela_el σ) (src : Ptr) (p : Process σ) :
    ela_error_t × Process σ :=
  let r := ctx.backend.add ctx.addr src p.st
  let err := r.1
  let p1 : Process σ := { p with st := r.2 }
  if err ≠ 0 then (err, DBG ⟨"ela_add", ctx.addr, some src, err⟩ p1)
  else (err, p1)

/-- Function `ela_error_t ela_remove(ctx, src)` -/
def ela_remove {σ : Type} (ctx : ela_el σ) (src : Ptr) (p : Process σ) :
    ela_error_t × Process σ :=
  let r := ctx.backend.remove ctx.addr src p.st
  let err := r.1
  let p1 : Process σ := { p with st := r.2 }
  if err ≠ 0 then (err, DBG ⟨"ela_remove", ctx.addr, some src, err⟩ p1)
  else (err, p1)

/-- Function `void ela_run(ctx)` -/
def ela_run {σ : Type} (ctx : ela_el σ) (p : Process σ) : Process σ :=
  { p with st := ctx.backend.run ctx.addr p.st }

/-- Function `void ela_exit(ctx)` -/
def ela_exit {σ : Type} (ctx : ela_el σ) (p : Process σ) : Process σ :=
  { p with st := ctx.backend.exit ctx.addr p.st }

/-- Function `void ela_close(ctx)` -/
def ela_close {σ : Type} (ctx : ela_el σ) (p : Process σ) : Process σ :=
  { p with st := ctx.backend.close ctx.addr p.st }

/-- Function `ela_error_t ela_source_alloc(ctx, func, priv, ret)` -/
def ela_source_alloc {σ : Type} (ctx : ela_el σ) (func priv ret : Ptr)
    (p : Process σ) : ela_error_t × Process σ :=
  let r := ctx.backend.source_alloc ctx.addr func priv ret p.st
  let err := r.1
  let p1 : Process σ := { p with st := r.2 }
  if err ≠ 0 then (err, DBG ⟨"ela_source_alloc", ctx.addr, none, err⟩ p1)
  else (err, p1)

/-- Function `void ela_source_free(ctx, src)` -/
def ela_source_free {σ : Type} (ctx : ela_el σ) (src : Ptr) (p : Process σ) :
    Process σ :=
  { p with st := ctx.backend.source_free ctx.addr src p.st }

/-! ## `src/ela_libevent.c` -/

namespace Libevent

/-- Constant `EV_TIMEOUT` of libevent's `<event.h>` -/
def EV_TIMEOUT : Nat := 0x01

/-- Constant `EV_READ` of libevent's `<event.h>` -/
def EV_READ : Nat := 0x02

/-- Constant `EV_WRITE` of libevent's `<event.h>` -/
def EV_WRITE : Nat := 0x04

/-- Constant `EV_SIGNAL` of libevent's `<event.h>` -/
def EV_SIGNAL : Nat := 0x08

/-- Constant `EV_PERSIST` of libevent's `<event.h>` -/
def EV_PERSIST : Nat := 0x10

/-- The fields of libevent's `struct event` this backend relies on: the base
it is bound to, the descriptor and the `EV_*` conditions given to
`event_set`, the callback argument, and the event's own record of being
registered: `inserted` (`EVLIST_INSERTED`, on the base's list of fd events)
and `timer` (`EVLIST_TIMEOUT`, the relative timeout it was added with). The
callback is always `_ela_event_cb`. -/
structure event where
  ev_base : Ptr
  ev_fd : Int
  ev_events : Nat
  ev_arg : Ptr
  inserted : Bool
  timer : Option timeval
deriving DecidableEq, Repr

/-- Structure `struct libevent_mainloop` (without the `base` member, which holds the
backend pointer). -/
structure libevent_mainloop where
  event : Ptr
  auto_allocated : Int
deriving DecidableEq, Repr

/-- Structure `struct ela_event_source` of the libevent backend. -/
structure ela_event_source where
  handler : Ptr
  event : event
  timeout : timeval
  priv : Ptr
  flags : Nat
deriving DecidableEq, Repr

/-- External, libevent: `event_set(ev, fd, events, callback, arg)` prepares
the event and resets its bookkeeping (`ev_flags = EVLIST_INIT`); the base
becomes libevent's `current_base`. -/
def event_set (current_base : Ptr) (_ev : event) (fd : Int) (events : Nat)
    (arg : Ptr) : event :=
  { ev_base := current_base, ev_fd := fd, ev_events := events, ev_arg := arg,
    inserted := false, timer := none }

/-- External, libevent: `event_base_set(base, ev)` binds an event that is
not registered to `base`, and fails with `-1` on a registered one. -/
def event_base_set (base : Ptr) (ev : event) : Int × event :=
  if ev.inserted ∨ ev.timer ≠ none then (-1, ev)
  else (0, { ev with ev_base := base })

/-- External, libevent: `event_del(ev)` takes the event off the lists of its
base. -/
def event_del (ev : event) : Int × event :=
  (0, { ev with inserted := false, timer := none })

/-- External, libevent: `event_add(ev, tv)`. Whether the base accepts the
event is libevent's answer `ok`; a refused event is left as it was and `-1`
is returned, an accepted one is registered for its fd conditions, and for the
timeout `tv` when there is one. -/
def event_add (ok : Bool) (ev : event) (tv : Option timeval) : Int × event :=
  if ok then
    (0, { ev with
          inserted := ev.inserted
            || decide (ev.ev_events &&& (EV_READ ||| EV_WRITE ||| EV_SIGNAL) ≠ 0),
          timer := match tv with
            | some t => some t
            | none => ev.timer })
  else (-1, ev)

/-- Function `static ela_error_t _real_add(struct ela_event_source *src)`; `ok` is
what libevent answers to the `event_add`. -/
def _real_add (ok : Bool) (src : ela_event_source) :
    ela_error_t × ela_event_source :=
  let tv : Option timeval := some src.timeout
  let tv := if src.flags &&& ELA_EVENT_TIMEOUT = 0 then none else tv
  let src1 := { src with event := (event_del src.event).2 }
  let r := event_add ok src1.event tv
  let ev_err := r.1
  let src2 := { src1 with event := r.2 }
  if ev_err ≠ 0 then (ECANCELED, src2)
  else (0, src2)

/-- Function `static ela_error_t _ela_event_set_fd(ctx_, src, fd, ela_flags)`; `src_addr`
is the pointer `src` itself, handed to libevent as the callback argument. -/
def _ela_event_set_fd (current_base : Ptr) (src_addr : Ptr)
    (src : ela_event_source) (fd : Int) (ela_flags : Nat) :
    ela_error_t × ela_event_source :=
  let err : ela_error_t := 0
  let fd_flags := ELA_EVENT_ONCE ||| ELA_EVENT_READABLE ||| ELA_EVENT_WRITABLE
  let ev_flags := EV_PERSIST
  let ev_flags :=
    if ela_flags &&& ELA_EVENT_ONCE ≠ 0 then ev_flags &&& not32 EV_PERSIST
    else ev_flags
  let ev_flags :=
    if ela_flags &&& ELA_EVENT_READABLE ≠ 0 then ev_flags ||| EV_READ
    else ev_flags
  let ev_flags :=
    if ela_flags &&& ELA_EVENT_WRITABLE ≠ 0 then ev_flags ||| EV_WRITE
    else ev_flags
  let src1 := { src with
    flags := (src.flags &&& not32 fd_flags) ||| (ela_flags &&& fd_flags) }
  let src2 := { src1 with
    event := event_set current_base src1.event fd ev_flags src_addr }
  (err, src2)

/-- Function `static ela_error_t _ela_event_set_timeout(ctx_, src, tv, ela_flags)` -/
def _ela_event_set_timeout (src : ela_event_source) (tv : Option timeval)
    (ela_flags : Nat) : ela_error_t × ela_event_source :=
  let timeout_flags := ELA_EVENT_ONCE ||| ELA_EVENT_TIMEOUT
  match tv with
  | some t =>
    let src1 := { src with timeout := t }
    let ela_flags := ela_flags ||| ELA_EVENT_TIMEOUT
    (0, { src1 with
          flags := (src1.flags &&& not32 timeout_flags)
            ||| (ela_flags &&& timeout_flags) })
  | none =>
    (0, { src with flags := src.flags &&& not32 ELA_EVENT_TIMEOUT })

/-- Function `static ela_error_t _ela_event_add(ctx_, src)` -/
def _ela_event_add (ok : Bool) (ctx : libevent_mainloop)
    (src : ela_event_source) : ela_error_t × ela_event_source :=
  let src1 := { src with event := (event_base_set ctx.event src.event).2 }
  _real_add ok src1

end Libevent

/-! ## `src/ela_cf.c` -/

namespace CF

/-- Constant `kCFFileDescriptorReadCallBack` of `<CoreFoundation/CFFileDescriptor.h>` -/
def kCFFileDescriptorReadCallBack : Nat := 1

/-- Constant `kCFFileDescriptorWriteCallBack` of `<CoreFoundation/CFFileDescriptor.h>` -/
def kCFFileDescriptorWriteCallBack : Nat := 2

/-- Structure `struct cf_mainloop` (without the `base` member, which holds the backend
pointer). -/
structure cf_mainloop where
  runloop : Ptr
  auto_allocated : Int
deriving DecidableEq, Repr

/-- Structure `struct ela_event_source` of the CoreFoundation backend. -/
structure ela_event_source where
  ref : Int
  flags : Nat
  fd : Int
  fd_cf : Ptr
  fd_source : Ptr
  tv : timeval
  timeout_source : Ptr
  handler : Ptr
  priv : Ptr
deriving DecidableEq, Repr

/-- External, CoreFoundation: what this backend can observe of the run loops
and of the objects it creates. For each run loop (in the common modes) the
run-loop sources and the timers it contains; for each `CFFileDescriptor` the
callback types that are enabled; for each timer its next fire date, in
seconds. -/
structure CFWorld where
  sources : Ptr → List Ptr
  timers : Ptr → List Ptr
  enabled : Ptr → Nat
  fire_date : Ptr → Double

/-- External, CoreFoundation: `CFRunLoopContainsSource(rl, source, mode)` -/
def CFRunLoopContainsSource (w : CFWorld) (rl source : Ptr) : Bool :=
  decide (source ∈ w.sources rl)

/-- External, CoreFoundation: `CFRunLoopAddSource(rl, source, mode)` -/
def CFRunLoopAddSource (w : CFWorld) (rl source : Ptr) : CFWorld :=
  if source ∈ w.sources rl then w
  else { w with sources := Function.update w.sources rl (w.sources rl ++ [source]) }

/-- External, CoreFoundation: `CFRunLoopRemoveSource(rl, source, mode)` -/
def CFRunLoopRemoveSource (w : CFWorld) (rl source : Ptr) : CFWorld :=
  { w with sources := Function.update w.sources rl ((w.sources rl).erase source) }

/-- External, CoreFoundation: `CFRunLoopContainsTimer(rl, timer, mode)` -/
def CFRunLoopContainsTimer (w : CFWorld) (rl timer : Ptr) : Bool :=
  decide (timer ∈ w.timers rl)

/-- External, CoreFoundation: `CFRunLoopAddTimer(rl, timer, mode)` -/
def CFRunLoopAddTimer (w : CFWorld) (rl timer : Ptr) : CFWorld :=
  if timer ∈ w.timers rl then w
  else { w with timers := Function.update w.timers rl (w.timers rl ++ [timer]) }

/-- External, CoreFoundation: `CFRunLoopRemoveTimer(rl, timer, mode)` -/
def CFRunLoopRemoveTimer (w : CFWorld) (rl timer : Ptr) : CFWorld :=
  { w with timers := Function.update w.timers rl ((w.timers rl).erase timer) }

/-- External, CoreFoundation: `CFRunLoopTimerSetNextFireDate(timer, date)` -/
def CFRunLoopTimerSetNextFireDate (w : CFWorld) (timer : Ptr) (date : Double) :
    CFWorld :=
  { w with fire_date := Function.update w.fire_date timer date }

/-- External, CoreFoundation: `CFFileDescriptorDisableCallBacks(f, types)` -/
def CFFileDescriptorDisableCallBacks (w : CFWorld) (f : Ptr) (types : Nat) :
    CFWorld :=
  { w with enabled := Function.update w.enabled f (w.enabled f &&& not32 types) }

/-- External, CoreFoundation: `CFFileDescriptorEnableCallBacks(f, types)` -/
def CFFileDescriptorEnableCallBacks (w : CFWorld) (f : Ptr) (types : Nat) :
    CFWorld :=
  { w with enabled := Function.update w.enabled f (w.enabled f ||| types) }

/-- Function `static void _fd_add(CFRunLoopRef rl, struct ela_event_source *src)` -/
def _fd_add (w : CFWorld) (rl : Ptr) (src : ela_event_source) : CFWorld :=
  if src.fd_source = NULL then w
  else
    let w :=
      if !CFRunLoopContainsSource w rl src.fd_source then
        CFRunLoopAddSource w rl src.fd_source
      else w
    let on_ := 0
    let on_ :=
      if src.flags &&& ELA_EVENT_WRITABLE ≠ 0 then
        on_ ||| kCFFileDescriptorWriteCallBack
      else on_
    let on_ :=
      if src.flags &&& ELA_EVENT_READABLE ≠ 0 then
        on_ ||| kCFFileDescriptorReadCallBack
      else on_
    let w := CFFileDescriptorDisableCallBacks w src.fd_cf
      (on_ ^^^ (kCFFileDescriptorWriteCallBack ||| kCFFileDescriptorWriteCallBack))
    CFFileDescriptorEnableCallBacks w src.fd_cf on_

/-- Function `static void _timeout_set(CFRunLoopRef rl, struct ela_event_source *src)`;
`now` is what `CFAbsoluteTimeGetCurrent()` answers. The interval and the fire
date are computed in `double` as in the C code:
`(double)tv_sec + (double)tv_usec * 1e-6` and `now + interval`. -/
def _timeout_set (now : Double) (w : CFWorld) (rl : Ptr)
    (src : ela_event_source) : CFWorld :=
  let interval : Double :=
    Double.add (Double.ofInt src.tv.tv_sec)
      (Double.mul (Double.ofInt src.tv.tv_usec) Double.micro)
  let w :=
    if CFRunLoopContainsTimer w rl src.timeout_source then
      CFRunLoopRemoveTimer w rl src.timeout_source
    else w
  let w := CFRunLoopTimerSetNextFireDate w src.timeout_source
    (Double.add now interval)
  if !CFRunLoopContainsTimer w rl src.timeout_source then
    CFRunLoopAddTimer w rl src.timeout_source
  else w

/-- Function `static ela_error_t _ela_cf_set_fd(ctx_, src, fd, ela_flags)`;
`new_fd_cf` is what `CFFileDescriptorCreate` answers for `fd`, and
`new_fd_source` what `CFFileDescriptorCreateRunLoopSource` answers (`NULL`
when the run-loop source cannot be created). -/
def _ela_cf_set_fd (new_fd_cf new_fd_source : Ptr) (src : ela_event_source)
    (_fd : Int) (ela_flags : Nat) : ela_error_t × ela_event_source :=
  let src1 := { src with fd_cf := new_fd_cf }
  let src2 := { src1 with fd_source := new_fd_source }
  if src2.fd_source = NULL then (ENOMEM, src2)
  else
    let fd_flags := ELA_EVENT_ONCE ||| ELA_EVENT_READABLE ||| ELA_EVENT_WRITABLE
    (0, { src2 with
          flags := (src2.flags &&& not32 fd_flags) ||| (ela_flags &&& fd_flags) })

/-- Function `static ela_error_t _ela_cf_set_timeout(ctx_, src, tv, ela_flags)` -/
def _ela_cf_set_timeout (src : ela_event_source) (tv : Option timeval)
    (ela_flags : Nat) : ela_error_t × ela_event_source :=
  let timeout_flags := ELA_EVENT_ONCE ||| ELA_EVENT_TIMEOUT
  match tv with
  | some t =>
    let src1 := { src with tv := t }
    let ela_flags := ela_flags ||| ELA_EVENT_TIMEOUT
    (0, { src1 with
          flags := (src1.flags &&& not32 timeout_flags)
            ||| (ela_flags &&& timeout_flags) })
  | none =>
    (0, { src with flags := src.flags &&& not32 ELA_EVENT_TIMEOUT })

/-- Function `static ela_error_t _ela_cf_add(ctx_, src)` -/
def _ela_cf_add (now : Double) (w : CFWorld) (ctx : cf_mainloop)
    (src : ela_event_source) : ela_error_t × CFWorld :=
  let w := _fd_add w ctx.runloop src
  let w :=
    if src.flags &&& ELA_EVENT_TIMEOUT ≠ 0 then _timeout_set now w ctx.runloop src
    else w
  (0, w)

end CF

/-! ## Callbacks and the life of a source -/

/-- What can be observed of one source while callbacks run: the call of its
handler with the descriptor, the reason mask and the user data it is given,
the return of the handler, and the release of the storage of the source by
`free(src)`. -/
inductive HandlerEvent where
  | call (fd : Int) (mask : Nat) (data : Ptr)
  | ret
  | free
deriving DecidableEq, Repr

/-- Type `ela_handler_func`: the code of a handler, given the descriptor, the
mask and the user data, acting on the state `σ` of the backend (which holds
the source it is called for). -/
abbrev ela_handler_func (σ : Type) := Int → Nat → Ptr → σ → σ

/-! ### `src/ela_libevent.c`, continued -/

namespace Libevent

/-- The state the libevent backend acts on for one source: the source and the
trace of its handler calls and of its release. -/
structure State where
  src : ela_event_source
  trace : List HandlerEvent
deriving DecidableEq, Repr

/-- The libc `free(src)`. -/
def free (s : State) : State :=
  { s with trace := s.trace ++ [HandlerEvent.free] }

/-- The call `src->handler(src, fd, ela_flags, src->priv)`: the handler runs
on the state, its call and its return are recorded. -/
def call_handler (handler : ela_handler_func State) (fd : Int) (mask : Nat)
    (data : Ptr) (s : State) : State :=
  let s1 := { s with trace := s.trace ++ [HandlerEvent.call fd mask data] }
  let s2 := handler fd mask data s1
  { s2 with trace := s2.trace ++ [HandlerEvent.ret] }

/-- Function `static void _ela_event_cb(int fd, short ev_flags, void *priv)`;
`handler` is the code `src->handler` points to and `ok` what libevent
answers to the `event_add` of `_real_add`. -/
def _ela_event_cb (ok : Bool) (handler : ela_handler_func State) (fd : Int)
    (ev_flags : Nat) (s : State) : State :=
  let ela_flags := 0
  let ela_flags :=
    if ev_flags &&& EV_READ ≠ 0 then ela_flags ||| ELA_EVENT_READABLE
    else ela_flags
  let ela_flags :=
    if ev_flags &&& EV_WRITE ≠ 0 then ela_flags ||| ELA_EVENT_WRITABLE
    else ela_flags
  let ela_flags :=
    if ev_flags &&& EV_TIMEOUT ≠ 0 then ela_flags ||| ELA_EVENT_TIMEOUT
    else ela_flags
  let s :=
    if s.src.flags &&& ELA_EVENT_TIMEOUT ≠ 0
        ∧ ¬ (s.src.flags &&& ELA_EVENT_ONCE ≠ 0) then
      { s with src := (_real_add ok s.src).2 }
    else s
  call_handler handler fd ela_flags s.src.priv s

/-- Function `static ela_error_t _ela_event_remove(ctx_, src)` -/
def _ela_event_remove (src : ela_event_source) :
    ela_error_t × ela_event_source :=
  (0, { src with event := (event_del src.event).2 })

/-- Function `static ela_error_t _ela_source_alloc(ctx_, func, priv, source)`
of the libevent backend; `malloc_ok` tells whether `malloc` succeeds,
`src_addr` is the address it returns, and `garbage` is the content of the
member `timeout`, which is not initialised. The result is the error code and
the value stored in `*source`, if any. -/
def _ela_source_alloc (malloc_ok : Bool) (current_base src_addr : Ptr)
    (garbage : timeval) (garbage_event : event) (ctx : libevent_mainloop)
    (func priv : Ptr) : ela_error_t × Option ela_event_source :=
  if !malloc_ok then (ENOMEM, none)
  else
    let ev := event_set current_base garbage_event (-1) EV_PERSIST src_addr
    let ev := (event_base_set ctx.event ev).2
    (0, some { handler := func, event := ev, timeout := garbage, priv := priv,
               flags := 0 })

/-- Function `static void _ela_source_free(ctx_, src)` of the libevent
backend. -/
def _ela_source_free (s : State) : State :=
  free { s with src := (_ela_event_remove s.src).2 }

/-- External, libevent: the dispatch loop, for a registered event whose
descriptor became ready for the conditions `res`. An event without
`EV_PERSIST` is deleted before its callback runs, a persistent one stays
registered; the callback is given the descriptor of the event. -/
def dispatch_fd_ready (ok : Bool) (handler : ela_handler_func State)
    (res : Nat) (s : State) : State :=
  let ev :=
    if s.src.event.ev_events &&& EV_PERSIST = 0 then (event_del s.src.event).2
    else s.src.event
  _ela_event_cb ok handler ev.ev_fd res { s with src := { s.src with event := ev } }

end Libevent

/-! ### `src/ela_cf.c`, continued -/

namespace CF

/-- The state the CoreFoundation backend acts on for one source: the
CoreFoundation world, the source, the objects handed to `CFRelease` so far
(in order), and the trace of the handler calls and of the release of the
source. -/
structure State where
  w : CFWorld
  src : ela_event_source
  released : List Ptr
  trace : List HandlerEvent

/-- Type `ela_handler_func` in the CoreFoundation backend: the code of a
handler, given the descriptor, the mask and the user data. It either returns
(`Except.ok`) or the process is terminated while it runs (`Except.error`,
with the state reached). -/
abbrev ela_handler_func := Int → Nat → Ptr → State → Except State State

/-- The state in which a run ended, by a return or by the termination of the
process. -/
def final (r : Except State State) : State :=
  match r with
  | Except.ok s => s
  | Except.error s => s

/-- Whether a run ended by the termination of the process. -/
def crashed (r : Except State State) : Bool :=
  match r with
  | Except.ok _ => false
  | Except.error _ => true

/-- External, CoreFoundation: `CFRelease(cf)` gives up one reference to the
object; a run loop keeps its own reference to what it contains. The argument
must not be `NULL`: as documented, `CFRelease(NULL)` causes a runtime error
and the application crashes. -/
def CFRelease (s : State) (cf : Ptr) : Except State State :=
  if cf = NULL then Except.error s
  else Except.ok { s with released := s.released ++ [cf] }

/-- The libc `free(src)`. -/
def free (s : State) : State :=
  { s with trace := s.trace ++ [HandlerEvent.free] }

/-- The call `src->handler(src, fd, ela_flags, src->priv)`: the handler runs
on the state, its call and its return are recorded. -/
def call_handler (handler : ela_handler_func) (fd : Int) (mask : Nat)
    (data : Ptr) (s : State) : Except State State :=
  let s1 := { s with trace := s.trace ++ [HandlerEvent.call fd mask data] }
  match handler fd mask data s1 with
  | Except.error e => Except.error e
  | Except.ok s2 => Except.ok { s2 with trace := s2.trace ++ [HandlerEvent.ret] }

/-- Function `static void source_ref(struct ela_event_source *src)` -/
def source_ref (s : State) : State :=
  { s with src := { s.src with ref := s.src.ref + 1 } }

/-- Function `static int source_release(struct ela_event_source *src)` -/
def source_release (s : State) : Int × State :=
  let s1 := { s with src := { s.src with ref := s.src.ref - 1 } }
  let nref := s1.src.ref
  if nref = 0 then (nref, free s1)
  else (nref, s1)

/-- Function `static void _fd_remove(CFRunLoopRef rl, struct ela_event_source *src)` -/
def _fd_remove (w : CFWorld) (rl : Ptr) (src : ela_event_source) : CFWorld :=
  if src.fd_source = NULL then w
  else CFRunLoopRemoveSource w rl src.fd_source

/-- Function `static void elacf_drop_fd(struct ela_event_source *src)` -/
def elacf_drop_fd (s : State) : Except State State :=
  match CFRelease s s.src.fd_cf with
  | Except.error e => Except.error e
  | Except.ok s1 => Except.ok { s1 with src := { s1.src with fd_cf := NULL } }

/-- Function `static void elacf_drop_fd_source(struct ela_event_source *src)` -/
def elacf_drop_fd_source (s : State) : Except State State :=
  match CFRelease s s.src.fd_source with
  | Except.error e => Except.error e
  | Except.ok s1 =>
    Except.ok { s1 with src := { s1.src with fd_source := NULL } }

/-- Function `static void elacf_drop_timer_source(struct ela_event_source *src)` -/
def elacf_drop_timer_source (s : State) : State :=
  let s1 := { s with src := { s.src with timeout_source := NULL } }
  { s1 with src := { s1.src with
      flags := s1.src.flags &&& not32 ELA_EVENT_TIMEOUT } }

/-- Function `static void fd_cf_callback(CFFileDescriptorRef f, CFOptionFlags reason,
void *info)`; `handler` is the code `src->handler` points to, `current` what
`CFRunLoopGetCurrent()` answers and `now` what `CFAbsoluteTimeGetCurrent()`
answers. -/
def fd_cf_callback (now : Double) (current : Ptr) (handler : ela_handler_func)
    (reason : Nat) (s : State) : Except State State :=
  let ela_flags := 0
  let ela_flags :=
    if reason &&& kCFFileDescriptorReadCallBack ≠ 0 then
      ela_flags ||| ELA_EVENT_READABLE
    else ela_flags
  let ela_flags :=
    if reason &&& kCFFileDescriptorWriteCallBack ≠ 0 then
      ela_flags ||| ELA_EVENT_WRITABLE
    else ela_flags
  let s := source_ref s
  match call_handler handler s.src.fd ela_flags s.src.priv s with
  | Except.error e => Except.error e
  | Except.ok s =>
    let r := source_release s
    let s := r.2
    if r.1 ≠ 0 then
      let w :=
        if s.src.flags &&& ELA_EVENT_ONCE ≠ 0 then _fd_remove s.w current s.src
        else _fd_add s.w current s.src
      let w :=
        if s.src.flags &&& ELA_EVENT_TIMEOUT ≠ 0 then
          _timeout_set now w current s.src
        else w
      Except.ok { s with w := w }
    else Except.ok s

/-- Function `static void cf_timeout_callback(CFRunLoopTimerRef timer, void *info)`,
with `handler`, `current` and `now` as in `fd_cf_callback`. -/
def cf_timeout_callback (now : Double) (current : Ptr)
    (handler : ela_handler_func) (s : State) : Except State State :=
  let s :=
    if s.src.flags &&& ELA_EVENT_TIMEOUT ≠ 0 then
      { s with w := _timeout_set now s.w current s.src }
    else s
  call_handler handler s.src.fd ELA_EVENT_TIMEOUT s.src.priv s

/-- Function `static ela_error_t _ela_cf_remove(ctx_, src)` -/
def _ela_cf_remove (w : CFWorld) (ctx : cf_mainloop) (src : ela_event_source) :
    ela_error_t × CFWorld :=
  let w := _fd_remove w ctx.runloop src
  let w :=
    if CFRunLoopContainsTimer w ctx.runloop src.timeout_source then
      CFRunLoopRemoveTimer w ctx.runloop src.timeout_source
    else w
  (0, w)

/-- Function `static ela_error_t _ela_source_alloc(ctx_, func, priv, source)`
of the CoreFoundation backend; `malloc_ok` tells whether `malloc` succeeds
and `new_timer` is what `CFRunLoopTimerCreate` answers. The result is the
error code and the value stored in `*source`, if any. -/
def _ela_source_alloc (malloc_ok : Bool) (new_timer : Ptr) (func priv : Ptr) :
    ela_error_t × Option ela_event_source :=
  if !malloc_ok then (ENOMEM, none)
  else
    let src : ela_event_source :=
      { ref := 0, flags := 0, fd := 0, fd_cf := NULL, fd_source := NULL,
        tv := { tv_sec := 0, tv_usec := 0 }, timeout_source := NULL,
        handler := NULL, priv := NULL }
    let src := { src with priv := priv }
    let src := { src with handler := func }
    let src := { src with flags := 0 }
    let src := { src with timeout_source := new_timer }
    let src := { src with ref := 1 }
    (0, some src)

/-- Function `static void _ela_source_free(ctx_, src)` of the CoreFoundation
backend. The timer handle is `NULL` from `elacf_drop_timer_source` on; what
`CFRunLoopContainsTimer` does with a `NULL` timer is not documented, here it
answers by the content of the run loop, and the run ends at the latest in the
`CFRelease` that follows. -/
def _ela_source_free (ctx : cf_mainloop) (s : State) : Except State State :=
  match (if s.src.fd_source ≠ NULL then elacf_drop_fd_source s
      else Except.ok s) with
  | Except.error e => Except.error e
  | Except.ok s =>
    let s := elacf_drop_timer_source s
    let s :=
      if CFRunLoopContainsTimer s.w ctx.runloop s.src.timeout_source then
        { s with
          w := CFRunLoopRemoveTimer s.w ctx.runloop s.src.timeout_source }
      else s
    match CFRelease s s.src.timeout_source with
    | Except.error e => Except.error e
    | Except.ok s =>
      match (if s.src.fd_cf ≠ NULL then elacf_drop_fd s else Except.ok s) with
      | Except.error e => Except.error e
      | Except.ok s => Except.ok (source_release s).2

end CF

/-! ## Test fixtures -/

/-- A backend descriptor for tests, over a state that is the list of the
loops constructed so far: it is named `name`, its constructor returns the
address `loop` and logs it, and its other operations do nothing and report
`err`. -/
def test_backend (name : String) (loop : Ptr) (err : ela_error_t) :
    ela_el_backend (List Ptr) where
  source_alloc := fun _ _ _ _ w => (err, w)
  source_free := fun _ _ w => w
  set_fd := fun _ _ _ _ w => (err, w)
  set_timeout := fun _ _ _ _ w => (err, w)
  add := fun _ _ w => (err, w)
  remove := fun _ _ w => (err, w)
  exit := fun _ w => w
  run := fun _ w => w
  close := fun _ w => w
  name := name
  create := fun w => (loop, loop :: w)

/-- A memory for tests: the descriptor of a backend named `"libevent"` at
address 100, whose constructor returns the loop 1000, and the descriptor of a
backend named `"CFRunLoop"` everywhere else, whose constructor returns the
loop 2000. -/
def test_mem : Ptr → ela_el_backend (List Ptr) :=
  fun a => if a = 100 then test_backend "libevent" 1000 0
    else test_backend "CFRunLoop" 2000 0

/-- A registry for tests: the backend at address 100 registered first, then
the backend at address 200. -/
def test_registry : Registry :=
  ela_register 200 (ela_register 100 Registry.empty)

/-- A registry for tests with its eight slots occupied, by the backends at
the addresses 100, 200, ..., 800. -/
def test_registry_full : Registry := fun i => 100 * (i.val + 1)

/-- A libevent loop for tests: the event base at address 5, allocated by the
constructor. -/
def Libevent.test_loop : Libevent.libevent_mainloop :=
  { event := 5, auto_allocated := 1 }

/-- A libevent source for tests, as `_ela_source_alloc` leaves it at address
77: handler 41, private data 51, no flags, the event set for no descriptor
(`-1`) with `EV_PERSIST`, and a zero `timeout`. -/
def Libevent.test_source : Libevent.ela_event_source :=
  { handler := 41,
    event := { ev_base := 5, ev_fd := -1, ev_events := Libevent.EV_PERSIST,
               ev_arg := 77, inserted := false, timer := none },
    timeout := { tv_sec := 0, tv_usec := 0 },
    priv := 51,
    flags := 0 }

/-- A CoreFoundation source for tests, as `_ela_source_alloc` leaves it:
one reference, no flags, no descriptor objects, the timer 31, handler 41 and
private data 51. -/
def CF.test_source : CF.ela_event_source :=
  { ref := 1, flags := 0, fd := 0, fd_cf := NULL, fd_source := NULL,
    tv := { tv_sec := 0, tv_usec := 0 }, timeout_source := 31,
    handler := 41, priv := 51 }

/-- The CoreFoundation test source after a successful
`set_fd(0, ELA_EVENT_READABLE | ELA_EVENT_ONCE)` for which CoreFoundation
created the descriptor object 11 and the run-loop source 12. -/
def CF.test_source_fd : CF.ela_event_source :=
  (CF._ela_cf_set_fd 11 12 CF.test_source 0
    (ELA_EVENT_READABLE ||| ELA_EVENT_ONCE)).2

/-- A CoreFoundation loop for tests, on the run loop at address 7. -/
def CF.test_loop : CF.cf_mainloop :=
  { runloop := 7, auto_allocated := 1 }

/-- A CoreFoundation world for tests: nothing in any run loop, no callback
enabled, every fire date zero. -/
def CF.test_world : CF.CFWorld :=
  { sources := fun _ => [], timers := fun _ => [], enabled := fun _ => 0,
    fire_date := fun _ => 0 }

/-- The reason mask `_ela_event_cb` hands to the handler for the conditions
`ev_flags` reported by libevent. -/
def Libevent.reason_mask (ev_flags : Nat) : Nat :=
  (if ev_flags &&& Libevent.EV_READ ≠ 0 then ELA_EVENT_READABLE else 0)
    ||| (if ev_flags &&& Libevent.EV_WRITE ≠ 0 then ELA_EVENT_WRITABLE else 0)
    ||| (if ev_flags &&& Libevent.EV_TIMEOUT ≠ 0 then ELA_EVENT_TIMEOUT else 0)

/-- The reason mask `fd_cf_callback` hands to the handler for the callback
types `reason` reported by CoreFoundation. -/
def CF.reason_mask (reason : Nat) : Nat :=
  (if reason &&& CF.kCFFileDescriptorReadCallBack ≠ 0 then ELA_EVENT_READABLE
    else 0)
    ||| (if reason &&& CF.kCFFileDescriptorWriteCallBack ≠ 0 then
      ELA_EVENT_WRITABLE else 0)

/-- The interval of a `struct timeval` in seconds, as `_timeout_set` computes
it in `double`: `(double)tv_sec + (double)tv_usec * 1e-6`. -/
def CF.interval (tv : timeval) : Double :=
  Double.add (Double.ofInt tv.tv_sec)
    (Double.mul (Double.ofInt tv.tv_usec) Double.micro)

/-- The run of `fd_cf_callback` up to the return of the handler: the callback
has taken its reference with `source_ref` and called the handler with
`src->fd`, the reason mask and `src->priv`. -/
def CF.at_handler_return (handler : CF.ela_handler_func) (reason : Nat)
    (s : CF.State) : Except CF.State CF.State :=
  CF.call_handler handler s.src.fd (CF.reason_mask reason) s.src.priv
    (CF.source_ref s)

/-- A handler for tests that does nothing (libevent backend). -/
def Libevent.noop_handler : ela_handler_func Libevent.State :=
  fun _ _ _ s => s

/-- A handler for tests that does nothing (CoreFoundation backend). -/
def CF.noop_handler : CF.ela_handler_func :=
  fun _ _ _ s => Except.ok s

/-- A libevent source for tests: allocated, then
`set_fd(0, READABLE | ONCE)`, `set_timeout({0, 500000}, 0)`,
`set_timeout(NULL, 0)` and a successful `add`. -/
def Libevent.test_source_edge : Libevent.ela_event_source :=
  (Libevent._ela_event_add true Libevent.test_loop
    (Libevent._ela_event_set_timeout
      (Libevent._ela_event_set_timeout
        (Libevent._ela_event_set_fd 0 77 Libevent.test_source 0
          (ELA_EVENT_READABLE ||| ELA_EVENT_ONCE)).2
        (some { tv_sec := 0, tv_usec := 500000 }) 0).2
      none 0).2).2

/-- A libevent source for tests: allocated, then `set_fd(0, READABLE)`,
`set_timeout({0, 500000}, 0)` and a successful `add`. -/
def Libevent.test_source_both : Libevent.ela_event_source :=
  (Libevent._ela_event_add true Libevent.test_loop
    (Libevent._ela_event_set_timeout
      (Libevent._ela_event_set_fd 0 77 Libevent.test_source 0
        ELA_EVENT_READABLE).2
      (some { tv_sec := 0, tv_usec := 500000 }) 0).2).2

/-- A CoreFoundation source for tests with a timeout only, one-shot:
allocated, then `set_timeout({0, 500000}, ELA_EVENT_ONCE)`. -/
def CF.test_source_timeout_once : CF.ela_event_source :=
  (CF._ela_cf_set_timeout CF.test_source
    (some { tv_sec := 0, tv_usec := 500000 }) ELA_EVENT_ONCE).2

/-- The state after `add` of the one-shot timeout source at time 100, on the
run loop 7. -/
def CF.test_state_timeout_once : CF.State :=
  { w := (CF._ela_cf_add 100 CF.test_world CF.test_loop
      CF.test_source_timeout_once).2,
    src := CF.test_source_timeout_once, released := [], trace := [] }

/-- A CoreFoundation source for tests with both watches: the source of
`test_source_fd` (descriptor object 11, run-loop source 12), then
`set_timeout({0, 500000}, 0)`. -/
def CF.test_source_both : CF.ela_event_source :=
  (CF._ela_cf_set_timeout CF.test_source_fd
    (some { tv_sec := 0, tv_usec := 500000 }) 0).2

/-- The state after `add` of `test_source_both` at time 100, on the run
loop 7. -/
def CF.test_state_both : CF.State :=
  { w := (CF._ela_cf_add 100 CF.test_world CF.test_loop CF.test_source_both).2,
    src := CF.test_source_both, released := [], trace := [] }

/-- The source of `test_source_fd` after a second successful
`set_fd(5, READABLE)`, for which CoreFoundation created the descriptor
object 21 and the run-loop source 22. -/
def CF.test_source_fd2 : CF.ela_event_source :=
  (CF._ela_cf_set_fd 21 22 CF.test_source_fd 5 ELA_EVENT_READABLE).2

/-- The state of the scenario `add; set_fd(5, READABLE); add` on
`test_source_fd`, on the run loop 7. -/
def CF.test_state_fd2 : CF.State :=
  { w := (CF._ela_cf_add 100
      (CF._ela_cf_add 100 CF.test_world CF.test_loop CF.test_source_fd).2
      CF.test_loop CF.test_source_fd2).2,
    src := CF.test_source_fd2, released := [], trace := [] }

/-! ## The registry: lemmas on the loops -/

theorem strcmp_eq_zero_iff (a b : String) : strcmp a b = 0 ↔ a = b := by
  unfold strcmp
  by_cases h : a = b
  · simp [h]
  · by_cases h2 : a.data < b.data <;> simp [h, h2]

theorem ela_register_loop_occupied (backend : Ptr) :
    ∀ (n i : Nat) (registry : Registry) (s : Fin REGISTRY_SIZE),
      registry s ≠ NULL →
      ela_register_loop backend n i registry s = registry s := by
  intro n
  induction n with
  | zero => intro i registry s _; rfl
  | succ n ih =>
    intro i registry s hs
    unfold ela_register_loop
    by_cases h : i < REGISTRY_SIZE
    · simp only [h, dite_true]
      by_cases h1 : registry ⟨i, h⟩ ≠ NULL
      · rw [if_pos h1]
        exact ih (i + 1) registry s hs
      · rw [if_neg h1]
        by_cases h2 : registry ⟨i, h⟩ = backend
        · rw [if_pos h2]
        · rw [if_neg h2]
          have hne : s ≠ ⟨i, h⟩ := by
            intro e
            apply hs
            rw [e]
            exact not_not.mp h1
          exact Function.update_noteq hne backend registry
    · simp only [h, dite_false]

theorem ela_register_loop_spec (backend : Ptr) (registry : Registry) :
    ∀ (n i : Nat), i + n = REGISTRY_SIZE →
      (∀ k : Fin REGISTRY_SIZE, i ≤ k.val → registry k = NULL →
        (∀ j : Fin REGISTRY_SIZE, i ≤ j.val → j < k → registry j ≠ NULL) →
        ela_register_loop backend n i registry
          = Function.update registry k backend) ∧
      ((∀ j : Fin REGISTRY_SIZE, i ≤ j.val → registry j ≠ NULL) →
        ela_register_loop backend n i registry = registry) := by
  intro n
  induction n with
  | zero =>
    intro i hi
    refine ⟨?_, fun _ => rfl⟩
    intro k hk
    have := k.isLt
    omega
  | succ n ih =>
    intro i hi
    have h : i < REGISTRY_SIZE := by omega
    obtain ⟨ih1, ih2⟩ := ih (i + 1) (by omega)
    unfold ela_register_loop
    simp only [h, dite_true]
    by_cases h1 : registry ⟨i, h⟩ ≠ NULL
    · rw [if_pos h1]
      refine ⟨?_, ?_⟩
      · intro k hk hnull hlow
        have hki : k.val ≠ i := by
          intro e
          apply h1
          have : k = ⟨i, h⟩ := Fin.ext e
          rw [← this]
          exact hnull
        apply ih1 k (by omega) hnull
        intro j hj hjk
        exact hlow j (by omega) hjk
      · intro hall
        apply ih2
        intro j hj
        exact hall j (by omega)
    · rw [if_neg h1]
      have h0 : registry ⟨i, h⟩ = NULL := not_not.mp h1
      refine ⟨?_, ?_⟩
      · intro k hk hnull hlow
        have hki : k = ⟨i, h⟩ := by
          by_contra hne
          have hlt : (⟨i, h⟩ : Fin REGISTRY_SIZE) < k := by
            rw [Fin.lt_def]
            have : k.val ≠ i := fun e => hne (Fin.ext e)
            simp only
            omega
          exact hlow ⟨i, h⟩ (le_refl i) hlt h0
        rw [hki]
        by_cases h2 : registry ⟨i, h⟩ = backend
        · rw [if_pos h2, ← h2]
          exact (Function.update_eq_self _ registry).symm
        · rw [if_neg h2]
      · intro hall
        exact absurd h0 (hall ⟨i, h⟩ (le_refl i))

theorem ela_create_by_name_spec {σ : Type} (mem : Ptr → ela_el_backend σ)
    (registry : Registry) (name : String) (w : σ) :
    ∀ (n i : Nat), i + n = REGISTRY_SIZE →
      (∀ k : Fin REGISTRY_SIZE, i ≤ k.val → registry k ≠ NULL →
        (mem (registry k)).name = name →
        (∀ j : Fin REGISTRY_SIZE, i ≤ j.val → j < k →
          registry j = NULL ∨ (mem (registry j)).name ≠ name) →
        ela_create_by_name mem registry name w n i
          = some ((mem (registry k)).create w)) ∧
      ((∀ j : Fin REGISTRY_SIZE, i ≤ j.val →
          registry j = NULL ∨ (mem (registry j)).name ≠ name) →
        ela_create_by_name mem registry name w n i = none) := by
  intro n
  induction n with
  | zero =>
    intro i hi
    refine ⟨?_, fun _ => rfl⟩
    intro k hk
    have := k.isLt
    omega
  | succ n ih =>
    intro i hi
    have h : i < REGISTRY_SIZE := by omega
    obtain ⟨ih1, ih2⟩ := ih (i + 1) (by omega)
    unfold ela_create_by_name
    simp only [h, dite_true]
    by_cases hskip : registry ⟨i, h⟩ = NULL ∨ (mem (registry ⟨i, h⟩)).name ≠ name
    · have hstep : (if registry ⟨i, h⟩ = NULL then
            ela_create_by_name mem registry name w n (i + 1)
          else if strcmp (mem (registry ⟨i, h⟩)).name name ≠ 0 then
            ela_create_by_name mem registry name w n (i + 1)
          else some ((mem (registry ⟨i, h⟩)).create w))
          = ela_create_by_name mem registry name w n (i + 1) := by
        rcases hskip with h0 | hn
        · rw [if_pos h0]
        · have : strcmp (mem (registry ⟨i, h⟩)).name name ≠ 0 :=
            fun e => hn ((strcmp_eq_zero_iff _ _).mp e)
          rw [if_pos this, ite_self]
      rw [hstep]
      refine ⟨?_, ?_⟩
      · intro k hk hreg hname hlow
        have hki : k.val ≠ i := by
          intro e
          have hk2 : k = ⟨i, h⟩ := Fin.ext e
          rw [hk2] at hreg hname
          rcases hskip with h0 | hn
          · exact hreg h0
          · exact hn hname
        apply ih1 k (by omega) hreg hname
        intro j hj hjk
        exact hlow j (by omega) hjk
      · intro hall
        apply ih2
        intro j hj
        exact hall j (by omega)
    · have hreg0 : registry ⟨i, h⟩ ≠ NULL := fun e => hskip (Or.inl e)
      have hname0 : (mem (registry ⟨i, h⟩)).name = name := by
        by_contra e
        exact hskip (Or.inr e)
      have hcmp : strcmp (mem (registry ⟨i, h⟩)).name name = 0 :=
        (strcmp_eq_zero_iff _ _).mpr hname0
      rw [if_neg hreg0, if_neg (not_not.mpr hcmp)]
      refine ⟨?_, ?_⟩
      · intro k hk hreg hname hlow
        have hki : k = ⟨i, h⟩ := by
          by_contra hne
          have hlt : (⟨i, h⟩ : Fin REGISTRY_SIZE) < k := by
            rw [Fin.lt_def]
            have : k.val ≠ i := fun e => hne (Fin.ext e)
            simp only
            omega
          rcases hlow ⟨i, h⟩ (le_refl i) hlt with h0 | hn
          · exact hreg0 h0
          · exact hn hname0
        rw [hki]
      · intro hall
        rcases hall ⟨i, h⟩ (le_refl i) with h0 | hn
        · exact absurd h0 hreg0
        · exact absurd hname0 hn

theorem ela_create_first_spec {σ : Type} (mem : Ptr → ela_el_backend σ)
    (registry : Registry) (w : σ) :
    ∀ (n i : Nat), i + n = REGISTRY_SIZE →
      (∀ k : Fin REGISTRY_SIZE, i ≤ k.val → registry k ≠ NULL →
        (∀ j : Fin REGISTRY_SIZE, i ≤ j.val → j < k → registry j = NULL) →
        ela_create_first mem registry w n i
          = some ((mem (registry k)).create w)) ∧
      ((∀ j : Fin REGISTRY_SIZE, i ≤ j.val → registry j = NULL) →
        ela_create_first mem registry w n i = none) := by
  intro n
  induction n with
  | zero =>
    intro i hi
    refine ⟨?_, fun _ => rfl⟩
    intro k hk
    have := k.isLt
    omega
  | succ n ih =>
    intro i hi
    have h : i < REGISTRY_SIZE := by omega
    obtain ⟨ih1, ih2⟩ := ih (i + 1) (by omega)
    unfold ela_create_first
    simp only [h, dite_true]
    by_cases h0 : registry ⟨i, h⟩ = NULL
    · rw [if_pos h0]
      refine ⟨?_, ?_⟩
      · intro k hk hreg hlow
        have hki : k.val ≠ i := by
          intro e
          have hk2 : k = ⟨i, h⟩ := Fin.ext e
          rw [hk2] at hreg
          exact hreg h0
        apply ih1 k (by omega) hreg
        intro j hj hjk
        exact hlow j (by omega) hjk
      · intro hall
        apply ih2
        intro j hj
        exact hall j (by omega)
    · rw [if_neg h0]
      refine ⟨?_, ?_⟩
      · intro k hk hreg hlow
        have hki : k = ⟨i, h⟩ := by
          by_contra hne
          have hlt : (⟨i, h⟩ : Fin REGISTRY_SIZE) < k := by
            rw [Fin.lt_def]
            have : k.val ≠ i := fun e => hne (Fin.ext e)
            simp only
            omega
          exact h0 (hlow ⟨i, h⟩ (le_refl i) hlt)
        rw [hki]
      · intro hall
        exact absurd (hall ⟨i, h⟩ (le_refl i)) h0

theorem ela_create_named {σ : Type} (mem : Ptr → ela_el_backend σ)
    (registry : Registry) (n : String) (w : σ) (k : Fin REGISTRY_SIZE)
    (hreg : registry k ≠ NULL) (hname : (mem (registry k)).name = n)
    (hlow : ∀ j : Fin REGISTRY_SIZE, j < k →
      registry j = NULL ∨ (mem (registry j)).name ≠ n) :
    ela_create mem registry (some n) w = (mem (registry k)).create w := by
  have h := (ela_create_by_name_spec mem registry n w REGISTRY_SIZE 0 (by simp)).1
    k (Nat.zero_le _) hreg hname (fun j _ hjk => hlow j hjk)
  simp only [ela_create, h]

theorem ela_create_fallback {σ : Type} (mem : Ptr → ela_el_backend σ)
    (registry : Registry) (name : Option String) (w : σ)
    (k : Fin REGISTRY_SIZE)
    (hname : ∀ n, name = some n → ∀ j : Fin REGISTRY_SIZE,
      registry j = NULL ∨ (mem (registry j)).name ≠ n)
    (hreg : registry k ≠ NULL)
    (hlow : ∀ j : Fin REGISTRY_SIZE, j < k → registry j = NULL) :
    ela_create mem registry name w = (mem (registry k)).create w := by
  have h2 := (ela_create_first_spec mem registry w REGISTRY_SIZE 0 (by simp)).1
    k (Nat.zero_le _) hreg (fun j _ hjk => hlow j hjk)
  cases name with
  | none => simp only [ela_create, h2]
  | some n =>
    have h1 := (ela_create_by_name_spec mem registry n w REGISTRY_SIZE 0
      (by simp)).2 (fun j _ => hname n rfl j)
    simp only [ela_create, h1, h2]

theorem ela_create_empty {σ : Type} (mem : Ptr → ela_el_backend σ)
    (registry : Registry) (name : Option String) (w : σ)
    (hempty : ∀ j : Fin REGISTRY_SIZE, registry j = NULL) :
    ela_create mem registry name w = (NULL, w) := by
  have h2 := (ela_create_first_spec mem registry w REGISTRY_SIZE 0 (by simp)).2
    (fun j _ => hempty j)
  cases name with
  | none => simp only [ela_create, h2]
  | some n =>
    have h1 := (ela_create_by_name_spec mem registry n w REGISTRY_SIZE 0
      (by simp)).2 (fun j _ => Or.inl (hempty j))
    simp only [ela_create, h1, h2]

/-! ## The registry: the claims -/

/-- C1: the selection rule of `ela_create`. When `name` is given and some
registered backend bears it, the result is what the constructor of the
lowest-index such backend returns; when `name` is `NULL` or no registered
backend bears it, the result is what the constructor of the first registered
backend returns; when nothing is registered the result is `NULL` and the
state is the one before the call (no constructor has run). -/
theorem ela_create_selection_rule {σ : Type} (mem : Ptr → ela_el_backend σ)
    (registry : Registry) (name : Option String) (w : σ) :
    (∀ (n : String) (k : Fin REGISTRY_SIZE), name = some n →
      registry k ≠ NULL → (mem (registry k)).name = n →
      (∀ j : Fin REGISTRY_SIZE, j < k →
        registry j = NULL ∨ (mem (registry j)).name ≠ n) →
      ela_create mem registry name w = (mem (registry k)).create w) ∧
    (∀ k : Fin REGISTRY_SIZE,
      (∀ n, name = some n → ∀ j : Fin REGISTRY_SIZE,
        registry j = NULL ∨ (mem (registry j)).name ≠ n) →
      registry k ≠ NULL →
      (∀ j : Fin REGISTRY_SIZE, j < k → registry j = NULL) →
      ela_create mem registry name w = (mem (registry k)).create w) ∧
    ((∀ j : Fin REGISTRY_SIZE, registry j = NULL) →
      ela_create mem registry name w = (NULL, w)) := by
  refine ⟨?_, ?_, ?_⟩
  · intro n k hn hreg hname hlow
    rw [hn]
    exact ela_create_named mem registry n w k hreg hname hlow
  · intro k hname hreg hlow
    exact ela_create_fallback mem registry name w k hname hreg hlow
  · intro hempty
    exact ela_create_empty mem registry name w hempty

/-- C1, on concrete registries: with `"libevent"` registered before
`"CFRunLoop"`, asking for `"CFRunLoop"` runs the second constructor, asking
for nothing runs the first, and on the empty registry the answer is `NULL`
with no constructor run. -/
theorem ela_create_selection_rule_witness :
    ela_create test_mem test_registry (some "CFRunLoop") [] = (2000, [2000]) ∧
    ela_create test_mem test_registry none [] = (1000, [1000]) ∧
    ela_create test_mem Registry.empty (some "libevent") [] = (NULL, []) :=
  ⟨((ela_create_selection_rule test_mem test_registry (some "CFRunLoop") []).1
      "CFRunLoop" ⟨1, by decide⟩ rfl (by decide) (by decide)
      (by decide)).trans (by decide),
   ((ela_create_selection_rule test_mem test_registry none []).2.1
      ⟨0, by decide⟩ (by intro n hn; cases hn) (by decide)
      (by decide)).trans (by decide),
   (ela_create_selection_rule test_mem Registry.empty (some "libevent") []).2.2
      (by decide)⟩

/-- C2, refuted: with one backend registered under the name `"libevent"`,
`ela_create("nonexistent-name")` does not return `NULL`: it returns the loop
built by the constructor of that backend. -/
theorem ela_create_unknown_name_not_null :
    (∃ i, ela_register 100 Registry.empty i ≠ NULL) ∧
    (∀ i, ela_register 100 Registry.empty i ≠ NULL →
      (test_mem (ela_register 100 Registry.empty i)).name ≠ "nonexistent-name") ∧
    ela_create test_mem (ela_register 100 Registry.empty)
      (some "nonexistent-name") [] = (1000, [1000]) ∧
    (ela_create test_mem (ela_register 100 Registry.empty)
      (some "nonexistent-name") []).1 ≠ NULL := by
  refine ⟨⟨⟨0, by decide⟩, by decide⟩, by decide, by decide, by decide⟩

/-- C2, amended: when at least one backend is registered and `name` is the
name of no registered backend, `ela_create(name)` returns what the
constructor of the first registered backend returns. -/
theorem ela_create_unknown_name_uses_first {σ : Type}
    (mem : Ptr → ela_el_backend σ) (registry : Registry) (name : String)
    (w : σ) (k : Fin REGISTRY_SIZE) (hreg : registry k ≠ NULL)
    (hlow : ∀ j : Fin REGISTRY_SIZE, j < k → registry j = NULL)
    (hname : ∀ j : Fin REGISTRY_SIZE,
      registry j ≠ NULL → (mem (registry j)).name ≠ name) :
    ela_create mem registry (some name) w = (mem (registry k)).create w := by
  apply ela_create_fallback mem registry (some name) w k _ hreg hlow
  intro n hn j
  cases hn
  by_cases h : registry j = NULL
  · exact Or.inl h
  · exact Or.inr (hname j h)

/-- C2, amended, on a concrete registry: both backends registered, an
unknown name yields the loop of the first one. -/
theorem ela_create_unknown_name_uses_first_witness :
    ela_create test_mem test_registry (some "nonexistent-name") []
      = (1000, [1000]) :=
  (ela_create_unknown_name_uses_first test_mem test_registry "nonexistent-name"
    [] ⟨0, by decide⟩ (by decide) (by decide) (by decide)).trans (by decide)

/-- C3, the code at the failing input: on the empty registry, registering the
backend at address 100 twice fills slot 0 and slot 1 with it, where a single
registration fills slot 0 only. -/
theorem ela_register_twice_takes_two_slots :
    ela_register 100 Registry.empty ⟨0, by decide⟩ = 100 ∧
    ela_register 100 Registry.empty ⟨1, by decide⟩ = NULL ∧
    ela_register 100 (ela_register 100 Registry.empty) ⟨0, by decide⟩ = 100 ∧
    ela_register 100 (ela_register 100 Registry.empty) ⟨1, by decide⟩ = 100 ∧
    ela_register 100 (ela_register 100 Registry.empty)
      ≠ ela_register 100 Registry.empty := by
  refine ⟨by decide, by decide, by decide, by decide, by decide⟩

/-- C4: `ela_register` is append-only with a capacity of `REGISTRY_SIZE = 8`.
It never changes an occupied slot; when some slot is empty the registry
after the call is the registry before it with the lowest-index empty slot set
to the backend; when all eight slots are occupied the registry is unchanged.
The function returns nothing but the registry. -/
theorem ela_register_append_only (backend : Ptr) (registry : Registry) :
    (∀ s : Fin REGISTRY_SIZE, registry s ≠ NULL →
      ela_register backend registry s = registry s) ∧
    (∀ k : Fin REGISTRY_SIZE, registry k = NULL →
      (∀ j : Fin REGISTRY_SIZE, j < k → registry j ≠ NULL) →
      ela_register backend registry = Function.update registry k backend) ∧
    ((∀ j : Fin REGISTRY_SIZE, registry j ≠ NULL) →
      ela_register backend registry = registry) := by
  have h := ela_register_loop_spec backend registry REGISTRY_SIZE 0 (by simp)
  refine ⟨?_, ?_, ?_⟩
  · intro s hs
    exact ela_register_loop_occupied backend REGISTRY_SIZE 0 registry s hs
  · intro k hnull hlow
    exact h.1 k (Nat.zero_le _) hnull (fun j _ hjk => hlow j hjk)
  · intro hall
    exact h.2 (fun j _ => hall j)

/-- C4, on concrete registries: registering the backend 300 after 100 and
200 leaves these two in place and puts 300 in slot 2, and registering the
backend 900 in a full registry changes nothing. -/
theorem ela_register_append_only_witness :
    ela_register 300 test_registry ⟨0, by decide⟩ = test_registry ⟨0, by decide⟩ ∧
    ela_register 300 test_registry
      = Function.update test_registry ⟨2, by decide⟩ 300 ∧
    ela_register 900 test_registry_full = test_registry_full :=
  ⟨(ela_register_append_only 300 test_registry).1 ⟨0, by decide⟩ (by decide),
   (ela_register_append_only 300 test_registry).2.1 ⟨2, by decide⟩ (by decide)
      (by decide),
   (ela_register_append_only 900 test_registry_full).2.2 (by decide)⟩

/-! ## The dispatch facade: the claim -/

/-- C5: the facade adds nothing to the backend. For every loop `ctx`, every
state and every argument tuple, `ela_set_fd`, `ela_set_timeout`, `ela_add`,
`ela_remove` and `ela_source_alloc` return the error code of the operation
of `ctx->backend` applied once to the same arguments, leave the state that
operation leaves, and print one trace line exactly when the code is not zero;
`ela_run`, `ela_exit`, `ela_close` and `ela_source_free` leave the state the
backend operation leaves and print nothing. -/
theorem facade_forwards_to_backend {σ : Type} (ctx : ela_el σ)
    (p : Process σ) :
    (∀ (src : Ptr) (fd : Int) (flags : Nat),
      (ela_set_fd ctx src fd flags p).1
        = (ctx.backend.set_fd ctx.addr src fd flags p.st).1 ∧
      (ela_set_fd ctx src fd flags p).2.st
        = (ctx.backend.set_fd ctx.addr src fd flags p.st).2 ∧
      (ela_set_fd ctx src fd flags p).2.out
        = if (ctx.backend.set_fd ctx.addr src fd flags p.st).1 = 0 then p.out
          else p.out ++ [⟨"ela_set_fd", ctx.addr, some src,
            (ctx.backend.set_fd ctx.addr src fd flags p.st).1⟩]) ∧
    (∀ (src : Ptr) (tv : Option timeval) (flags : Nat),
      (ela_set_timeout ctx src tv flags p).1
        = (ctx.backend.set_timeout ctx.addr src tv flags p.st).1 ∧
      (ela_set_timeout ctx src tv flags p).2.st
        = (ctx.backend.set_timeout ctx.addr src tv flags p.st).2 ∧
      (ela_set_timeout ctx src tv flags p).2.out
        = if (ctx.backend.set_timeout ctx.addr src tv flags p.st).1 = 0
          then p.out
          else p.out ++ [⟨"ela_set_timeout", ctx.addr, some src,
            (ctx.backend.set_timeout ctx.addr src tv flags p.st).1⟩]) ∧
    (∀ (src : Ptr),
      (ela_add ctx src p).1 = (ctx.backend.add ctx.addr src p.st).1 ∧
      (ela_add ctx src p).2.st = (ctx.backend.add ctx.addr src p.st).2 ∧
      (ela_add ctx src p).2.out
        = if (ctx.backend.add ctx.addr src p.st).1 = 0 then p.out
          else p.out ++ [⟨"ela_add", ctx.addr, some src,
            (ctx.backend.add ctx.addr src p.st).1⟩]) ∧
    (∀ (src : Ptr),
      (ela_remove ctx src p).1 = (ctx.backend.remove ctx.addr src p.st).1 ∧
      (ela_remove ctx src p).2.st = (ctx.backend.remove ctx.addr src p.st).2 ∧
      (ela_remove ctx src p).2.out
        = if (ctx.backend.remove ctx.addr src p.st).1 = 0 then p.out
          else p.out ++ [⟨"ela_remove", ctx.addr, some src,
            (ctx.backend.remove ctx.addr src p.st).1⟩]) ∧
    (∀ (func priv ret : Ptr),
      (ela_source_alloc ctx func priv ret p).1
        = (ctx.backend.source_alloc ctx.addr func priv ret p.st).1 ∧
      (ela_source_alloc ctx func priv ret p).2.st
        = (ctx.backend.source_alloc ctx.addr func priv ret p.st).2 ∧
      (ela_source_alloc ctx func priv ret p).2.out
        = if (ctx.backend.source_alloc ctx.addr func priv ret p.st).1 = 0
          then p.out
          else p.out ++ [⟨"ela_source_alloc", ctx.addr, none,
            (ctx.backend.source_alloc ctx.addr func priv ret p.st).1⟩]) ∧
    ((ela_run ctx p).st = ctx.backend.run ctx.addr p.st ∧
      (ela_run ctx p).out = p.out) ∧
    ((ela_exit ctx p).st = ctx.backend.exit ctx.addr p.st ∧
      (ela_exit ctx p).out = p.out) ∧
    ((ela_close ctx p).st = ctx.backend.close ctx.addr p.st ∧
      (ela_close ctx p).out = p.out) ∧
    (∀ (src : Ptr),
      (ela_source_free ctx src p).st
        = ctx.backend.source_free ctx.addr src p.st ∧
      (ela_source_free ctx src p).out = p.out) := by
  refine ⟨?_, ?_, ?_, ?_, ?_, ⟨rfl, rfl⟩, ⟨rfl, rfl⟩, ⟨rfl, rfl⟩,
    fun _ => ⟨rfl, rfl⟩⟩
  · intro src fd flags
    unfold ela_set_fd DBG
    by_cases h : (ctx.backend.set_fd ctx.addr src fd flags p.st).1 = 0 <;>
      simp [h]
  · intro src tv flags
    unfold ela_set_timeout DBG
    by_cases h : (ctx.backend.set_timeout ctx.addr src tv flags p.st).1 = 0 <;>
      simp [h]
  · intro src
    unfold ela_add DBG
    by_cases h : (ctx.backend.add ctx.addr src p.st).1 = 0 <;> simp [h]
  · intro src
    unfold ela_remove DBG
    by_cases h : (ctx.backend.remove ctx.addr src p.st).1 = 0 <;> simp [h]
  · intro func priv ret
    unfold ela_source_alloc DBG
    by_cases h : (ctx.backend.source_alloc ctx.addr func priv ret p.st).1 = 0 <;>
      simp [h]

/-! ## Flag words: lemmas on masks -/

theorem land_replace_in (a b m k : Nat) (hk : k &&& m = k)
    (hm : m &&& 0xFFFFFFFF = m) :
    ((a &&& not32 m) ||| (b &&& m)) &&& k = b &&& k := by
  apply Nat.eq_of_testBit_eq
  intro i
  have h1 := congrArg (fun x => Nat.testBit x i) hk
  have h2 := congrArg (fun x => Nat.testBit x i) hm
  simp only [not32, Nat.testBit_and, Nat.testBit_or, Nat.testBit_xor] at h1 h2 ⊢
  revert h1 h2
  cases Nat.testBit k i <;> cases Nat.testBit m i <;> cases Nat.testBit a i <;>
    cases Nat.testBit b i <;> cases Nat.testBit 0xFFFFFFFF i <;> simp

theorem land_replace_out (a b m k : Nat) (hk : k &&& m = 0)
    (hk32 : k &&& 0xFFFFFFFF = k) :
    ((a &&& not32 m) ||| (b &&& m)) &&& k = a &&& k := by
  apply Nat.eq_of_testBit_eq
  intro i
  have h1 := congrArg (fun x => Nat.testBit x i) hk
  have h2 := congrArg (fun x => Nat.testBit x i) hk32
  simp only [not32, Nat.testBit_and, Nat.testBit_or, Nat.testBit_xor,
    Nat.zero_testBit] at h1 h2 ⊢
  revert h1 h2
  cases Nat.testBit k i <;> cases Nat.testBit m i <;> cases Nat.testBit a i <;>
    cases Nat.testBit b i <;> cases Nat.testBit 0xFFFFFFFF i <;> simp

theorem land_clear_out (a m k : Nat) (hk : k &&& m = 0)
    (hk32 : k &&& 0xFFFFFFFF = k) :
    (a &&& not32 m) &&& k = a &&& k := by
  apply Nat.eq_of_testBit_eq
  intro i
  have h1 := congrArg (fun x => Nat.testBit x i) hk
  have h2 := congrArg (fun x => Nat.testBit x i) hk32
  simp only [not32, Nat.testBit_and, Nat.testBit_xor, Nat.zero_testBit]
    at h1 h2 ⊢
  revert h1 h2
  cases Nat.testBit k i <;> cases Nat.testBit m i <;> cases Nat.testBit a i <;>
    cases Nat.testBit 0xFFFFFFFF i <;> simp

theorem land_clear_in (a m k : Nat) (hk : k &&& m = k)
    (hm : m &&& 0xFFFFFFFF = m) :
    (a &&& not32 m) &&& k = 0 := by
  apply Nat.eq_of_testBit_eq
  intro i
  have h1 := congrArg (fun x => Nat.testBit x i) hk
  have h2 := congrArg (fun x => Nat.testBit x i) hm
  simp only [not32, Nat.testBit_and, Nat.testBit_xor, Nat.zero_testBit]
    at h1 h2 ⊢
  revert h1 h2
  cases Nat.testBit k i <;> cases Nat.testBit m i <;> cases Nat.testBit a i <;>
    cases Nat.testBit 0xFFFFFFFF i <;> simp

theorem lor_land_self (a k : Nat) : (a ||| k) &&& k = k := by
  apply Nat.eq_of_testBit_eq
  intro i
  simp only [Nat.testBit_and, Nat.testBit_or]
  cases Nat.testBit a i <;> cases Nat.testBit k i <;> simp

theorem lor_land_disjoint (a m k : Nat) (h : m &&& k = 0) :
    (a ||| m) &&& k = a &&& k := by
  apply Nat.eq_of_testBit_eq
  intro i
  have h1 := congrArg (fun x => Nat.testBit x i) h
  simp only [Nat.testBit_and, Nat.testBit_or, Nat.zero_testBit] at h1 ⊢
  revert h1
  cases Nat.testBit a i <;> cases Nat.testBit m i <;> cases Nat.testBit k i <;>
    simp

theorem land_of_land_mask (a b m k : Nat) (hk : m &&& k = k)
    (h : a &&& m = b &&& m) : a &&& k = b &&& k := by
  rw [← hk, ← Nat.land_assoc, ← Nat.land_assoc, h]

theorem testBit_land_not32_single (a n i : Nat) (hi : i < 32) (hn : i ≠ n) :
    Nat.testBit (a &&& not32 (2 ^ n)) i = Nat.testBit a i := by
  have hF : (0xFFFFFFFF : Nat) = 2 ^ 32 - 1 := by norm_num
  simp only [not32, Nat.testBit_and, Nat.testBit_xor, hF,
    Nat.testBit_two_pow_sub_one, Nat.testBit_two_pow]
  have h1 : decide (i < 32) = true := decide_eq_true hi
  have h2 : decide (n = i) = false := decide_eq_false (fun e => hn e.symm)
  rw [h1, h2]
  simp

/-! ## The source state of the backends: the claims -/

/-- C6: a successful `set_fd` replaces only the fd configuration, in the
libevent backend (`_ela_event_set_fd`) and in the CoreFoundation backend
(`_ela_cf_set_fd`). After it the `READABLE`, `WRITABLE` and `ONCE` bits of
the source are those of the flags argument, whatever they were before; the
`TIMEOUT` bit and the stored interval are those before the call; and two
flags arguments that agree on `READABLE`, `WRITABLE` and `ONCE` give the
same result. -/
theorem set_fd_replaces_only_fd_configuration :
    (∀ (current_base src_addr : Ptr) (src : Libevent.ela_event_source)
        (fd : Int) (ela_flags : Nat),
      (Libevent._ela_event_set_fd current_base src_addr src fd ela_flags).1 = 0 →
      (Libevent._ela_event_set_fd current_base src_addr src fd ela_flags).2.flags
          &&& ELA_EVENT_READABLE = ela_flags &&& ELA_EVENT_READABLE ∧
      (Libevent._ela_event_set_fd current_base src_addr src fd ela_flags).2.flags
          &&& ELA_EVENT_WRITABLE = ela_flags &&& ELA_EVENT_WRITABLE ∧
      (Libevent._ela_event_set_fd current_base src_addr src fd ela_flags).2.flags
          &&& ELA_EVENT_ONCE = ela_flags &&& ELA_EVENT_ONCE ∧
      (Libevent._ela_event_set_fd current_base src_addr src fd ela_flags).2.flags
          &&& ELA_EVENT_TIMEOUT = src.flags &&& ELA_EVENT_TIMEOUT ∧
      (Libevent._ela_event_set_fd current_base src_addr src fd ela_flags).2.timeout
          = src.timeout ∧
      (∀ other : Nat,
        other &&& (ELA_EVENT_ONCE ||| ELA_EVENT_READABLE ||| ELA_EVENT_WRITABLE)
          = ela_flags
            &&& (ELA_EVENT_ONCE ||| ELA_EVENT_READABLE ||| ELA_EVENT_WRITABLE) →
        Libevent._ela_event_set_fd current_base src_addr src fd other
          = Libevent._ela_event_set_fd current_base src_addr src fd ela_flags)) ∧
    (∀ (new_fd_cf new_fd_source : Ptr) (src : CF.ela_event_source)
        (fd : Int) (ela_flags : Nat),
      (CF._ela_cf_set_fd new_fd_cf new_fd_source src fd ela_flags).1 = 0 →
      (CF._ela_cf_set_fd new_fd_cf new_fd_source src fd ela_flags).2.flags
          &&& ELA_EVENT_READABLE = ela_flags &&& ELA_EVENT_READABLE ∧
      (CF._ela_cf_set_fd new_fd_cf new_fd_source src fd ela_flags).2.flags
          &&& ELA_EVENT_WRITABLE = ela_flags &&& ELA_EVENT_WRITABLE ∧
      (CF._ela_cf_set_fd new_fd_cf new_fd_source src fd ela_flags).2.flags
          &&& ELA_EVENT_ONCE = ela_flags &&& ELA_EVENT_ONCE ∧
      (CF._ela_cf_set_fd new_fd_cf new_fd_source src fd ela_flags).2.flags
          &&& ELA_EVENT_TIMEOUT = src.flags &&& ELA_EVENT_TIMEOUT ∧
      (CF._ela_cf_set_fd new_fd_cf new_fd_source src fd ela_flags).2.tv
          = src.tv ∧
      (∀ other : Nat,
        other &&& (ELA_EVENT_ONCE ||| ELA_EVENT_READABLE ||| ELA_EVENT_WRITABLE)
          = ela_flags
            &&& (ELA_EVENT_ONCE ||| ELA_EVENT_READABLE ||| ELA_EVENT_WRITABLE) →
        CF._ela_cf_set_fd new_fd_cf new_fd_source src fd other
          = CF._ela_cf_set_fd new_fd_cf new_fd_source src fd ela_flags)) := by
  refine ⟨?_, ?_⟩
  · intro current_base src_addr src fd ela_flags _
    refine ⟨?_, ?_, ?_, ?_, rfl, ?_⟩
    · exact land_replace_in _ _ _ _ (by decide) (by decide)
    · exact land_replace_in _ _ _ _ (by decide) (by decide)
    · exact land_replace_in _ _ _ _ (by decide) (by decide)
    · exact land_replace_out _ _ _ _ (by decide) (by decide)
    · intro other h
      have h8 := land_of_land_mask other ela_flags _ ELA_EVENT_ONCE (by decide) h
      have h1 := land_of_land_mask other ela_flags _ ELA_EVENT_READABLE
        (by decide) h
      have h2 := land_of_land_mask other ela_flags _ ELA_EVENT_WRITABLE
        (by decide) h
      simp only [Libevent._ela_event_set_fd, h, h8, h1, h2]
  · intro new_fd_cf new_fd_source src fd ela_flags hok
    have hsrc : ¬ new_fd_source = NULL := by
      intro e
      simp [CF._ela_cf_set_fd, e, ENOMEM] at hok
    refine ⟨?_, ?_, ?_, ?_, ?_, ?_⟩
    · simp only [CF._ela_cf_set_fd, if_neg hsrc]
      exact land_replace_in _ _ _ _ (by decide) (by decide)
    · simp only [CF._ela_cf_set_fd, if_neg hsrc]
      exact land_replace_in _ _ _ _ (by decide) (by decide)
    · simp only [CF._ela_cf_set_fd, if_neg hsrc]
      exact land_replace_in _ _ _ _ (by decide) (by decide)
    · simp only [CF._ela_cf_set_fd, if_neg hsrc]
      exact land_replace_out _ _ _ _ (by decide) (by decide)
    · simp only [CF._ela_cf_set_fd, if_neg hsrc]
    · intro other h
      simp only [CF._ela_cf_set_fd, h]

/-- C6, on concrete sources: a libevent source whose flags are
`TIMEOUT | WRITABLE` and a CoreFoundation source whose flags are
`READABLE | ONCE`, both given `set_fd(0, READABLE | 0x40)`. -/
theorem set_fd_replaces_only_fd_configuration_witness :
    ((Libevent._ela_event_set_fd 0 77
        { Libevent.test_source with flags := 6 } 0 0x41).2.flags = 5 ∧
      Libevent._ela_event_set_fd 0 77
        { Libevent.test_source with flags := 6 } 0 1
        = Libevent._ela_event_set_fd 0 77
          { Libevent.test_source with flags := 6 } 0 0x41) ∧
    ((CF._ela_cf_set_fd 21 22 CF.test_source_fd 0 0x41).2.flags = 1 ∧
      CF._ela_cf_set_fd 21 22 CF.test_source_fd 0 1
        = CF._ela_cf_set_fd 21 22 CF.test_source_fd 0 0x41) :=
  ⟨⟨by decide,
    (set_fd_replaces_only_fd_configuration.1 0 77
      { Libevent.test_source with flags := 6 } 0 0x41 (by decide)).2.2.2.2.2
      1 (by decide)⟩,
   ⟨by decide,
    (set_fd_replaces_only_fd_configuration.2 21 22 CF.test_source_fd 0 0x41
      (by decide)).2.2.2.2.2 1 (by decide)⟩⟩

/-- C7, refuted: in the CoreFoundation backend the source configured by
`set_fd(0, READABLE | ONCE)` has its `ONCE` bit set, and
`set_timeout({0, 500000}, 0)` clears it: the one-shot setting made by the
preceding `set_fd` (the bit `fd_cf_callback` reads to choose between
`_fd_remove` and `_fd_add`) is not left unchanged. The same happens to the
flag word of a libevent source. -/
theorem set_timeout_overwrites_once :
    CF.test_source_fd.flags &&& ELA_EVENT_ONCE = ELA_EVENT_ONCE ∧
    (CF._ela_cf_set_timeout CF.test_source_fd
      (some { tv_sec := 0, tv_usec := 500000 }) 0).2.flags
        &&& ELA_EVENT_ONCE = 0 ∧
    (CF._ela_cf_set_timeout CF.test_source_fd
      (some { tv_sec := 0, tv_usec := 500000 }) 0).2.flags
        &&& ELA_EVENT_ONCE ≠ CF.test_source_fd.flags &&& ELA_EVENT_ONCE ∧
    (Libevent._ela_event_set_timeout
      (Libevent._ela_event_set_fd 0 77 Libevent.test_source 0
        (ELA_EVENT_READABLE ||| ELA_EVENT_ONCE)).2
      (some { tv_sec := 0, tv_usec := 500000 }) 0).2.flags
        &&& ELA_EVENT_ONCE
      ≠ (Libevent._ela_event_set_fd 0 77 Libevent.test_source 0
        (ELA_EVENT_READABLE ||| ELA_EVENT_ONCE)).2.flags &&& ELA_EVENT_ONCE := by
  refine ⟨by decide, by decide, by decide, by decide⟩

/-- C7, amended: `set_timeout` with an interval `t` returns 0, sets the
`TIMEOUT` bit, stores `t` unchanged as the interval of the source, and leaves
the `READABLE` and `WRITABLE` bits and every other member of the source as
they were (in the libevent backend the event with its `EV_PERSIST` setting,
in the CoreFoundation backend the descriptor, its objects and the timer);
the single `ONCE` bit of the source becomes the `ONCE` bit of the flags
argument of `set_timeout`. -/
theorem set_timeout_interval_effect :
    (∀ (src : Libevent.ela_event_source) (t : timeval) (ela_flags : Nat),
      (Libevent._ela_event_set_timeout src (some t) ela_flags).1 = 0 ∧
      (Libevent._ela_event_set_timeout src (some t) ela_flags).2.flags
          &&& ELA_EVENT_TIMEOUT = ELA_EVENT_TIMEOUT ∧
      (Libevent._ela_event_set_timeout src (some t) ela_flags).2.timeout = t ∧
      (Libevent._ela_event_set_timeout src (some t) ela_flags).2.flags
          &&& ELA_EVENT_READABLE = src.flags &&& ELA_EVENT_READABLE ∧
      (Libevent._ela_event_set_timeout src (some t) ela_flags).2.flags
          &&& ELA_EVENT_WRITABLE = src.flags &&& ELA_EVENT_WRITABLE ∧
      (Libevent._ela_event_set_timeout src (some t) ela_flags).2.flags
          &&& ELA_EVENT_ONCE = ela_flags &&& ELA_EVENT_ONCE ∧
      (Libevent._ela_event_set_timeout src (some t) ela_flags).2
        = { src with
            timeout := t,
            flags :=
              (Libevent._ela_event_set_timeout src (some t) ela_flags).2.flags }) ∧
    (∀ (src : CF.ela_event_source) (t : timeval) (ela_flags : Nat),
      (CF._ela_cf_set_timeout src (some t) ela_flags).1 = 0 ∧
      (CF._ela_cf_set_timeout src (some t) ela_flags).2.flags
          &&& ELA_EVENT_TIMEOUT = ELA_EVENT_TIMEOUT ∧
      (CF._ela_cf_set_timeout src (some t) ela_flags).2.tv = t ∧
      (CF._ela_cf_set_timeout src (some t) ela_flags).2.flags
          &&& ELA_EVENT_READABLE = src.flags &&& ELA_EVENT_READABLE ∧
      (CF._ela_cf_set_timeout src (some t) ela_flags).2.flags
          &&& ELA_EVENT_WRITABLE = src.flags &&& ELA_EVENT_WRITABLE ∧
      (CF._ela_cf_set_timeout src (some t) ela_flags).2.flags
          &&& ELA_EVENT_ONCE = ela_flags &&& ELA_EVENT_ONCE ∧
      (CF._ela_cf_set_timeout src (some t) ela_flags).2
        = { src with
            tv := t,
            flags := (CF._ela_cf_set_timeout src (some t) ela_flags).2.flags }) := by
  refine ⟨?_, ?_⟩
  · intro src t ela_flags
    refine ⟨rfl, ?_, rfl, ?_, ?_, ?_, rfl⟩
    · exact (land_replace_in _ _ _ _ (by decide) (by decide)).trans
        (lor_land_self _ _)
    · exact land_replace_out _ _ _ _ (by decide) (by decide)
    · exact land_replace_out _ _ _ _ (by decide) (by decide)
    · exact (land_replace_in _ _ _ _ (by decide) (by decide)).trans
        (lor_land_disjoint _ _ _ (by decide))
  · intro src t ela_flags
    refine ⟨rfl, ?_, rfl, ?_, ?_, ?_, rfl⟩
    · exact (land_replace_in _ _ _ _ (by decide) (by decide)).trans
        (lor_land_self _ _)
    · exact land_replace_out _ _ _ _ (by decide) (by decide)
    · exact land_replace_out _ _ _ _ (by decide) (by decide)
    · exact (land_replace_in _ _ _ _ (by decide) (by decide)).trans
        (lor_land_disjoint _ _ _ (by decide))

/-- C8: `set_timeout` with no interval (`tv = NULL`) only disables the
timeout, in both backends and whatever the flags argument is: it returns 0,
the `TIMEOUT` bit is clear afterwards, the `READABLE`, `WRITABLE` and `ONCE`
bits and every other bit of the 32-bit flag word are unchanged, and every
other member of the source (the stored interval, the event or the descriptor
objects, the timer, the handler and its data) is unchanged. -/
theorem set_timeout_none_only_disables_timeout :
    (∀ (src : Libevent.ela_event_source) (ela_flags : Nat),
      (Libevent._ela_event_set_timeout src none ela_flags).1 = 0 ∧
      (Libevent._ela_event_set_timeout src none ela_flags).2.flags
          &&& ELA_EVENT_TIMEOUT = 0 ∧
      (Libevent._ela_event_set_timeout src none ela_flags).2.flags
          &&& ELA_EVENT_READABLE = src.flags &&& ELA_EVENT_READABLE ∧
      (Libevent._ela_event_set_timeout src none ela_flags).2.flags
          &&& ELA_EVENT_WRITABLE = src.flags &&& ELA_EVENT_WRITABLE ∧
      (Libevent._ela_event_set_timeout src none ela_flags).2.flags
          &&& ELA_EVENT_ONCE = src.flags &&& ELA_EVENT_ONCE ∧
      (∀ i : Nat, i < 32 → i ≠ 2 →
        Nat.testBit (Libevent._ela_event_set_timeout src none ela_flags).2.flags i
          = Nat.testBit src.flags i) ∧
      (Libevent._ela_event_set_timeout src none ela_flags).2
        = { src with
            flags :=
              (Libevent._ela_event_set_timeout src none ela_flags).2.flags }) ∧
    (∀ (src : CF.ela_event_source) (ela_flags : Nat),
      (CF._ela_cf_set_timeout src none ela_flags).1 = 0 ∧
      (CF._ela_cf_set_timeout src none ela_flags).2.flags
          &&& ELA_EVENT_TIMEOUT = 0 ∧
      (CF._ela_cf_set_timeout src none ela_flags).2.flags
          &&& ELA_EVENT_READABLE = src.flags &&& ELA_EVENT_READABLE ∧
      (CF._ela_cf_set_timeout src none ela_flags).2.flags
          &&& ELA_EVENT_WRITABLE = src.flags &&& ELA_EVENT_WRITABLE ∧
      (CF._ela_cf_set_timeout src none ela_flags).2.flags
          &&& ELA_EVENT_ONCE = src.flags &&& ELA_EVENT_ONCE ∧
      (∀ i : Nat, i < 32 → i ≠ 2 →
        Nat.testBit (CF._ela_cf_set_timeout src none ela_flags).2.flags i
          = Nat.testBit src.flags i) ∧
      (CF._ela_cf_set_timeout src none ela_flags).2
        = { src with
            flags := (CF._ela_cf_set_timeout src none ela_flags).2.flags }) := by
  refine ⟨?_, ?_⟩
  · intro src ela_flags
    refine ⟨rfl, ?_, ?_, ?_, ?_, ?_, rfl⟩
    · exact land_clear_in _ _ _ (by decide) (by decide)
    · exact land_clear_out _ _ _ (by decide) (by decide)
    · exact land_clear_out _ _ _ (by decide) (by decide)
    · exact land_clear_out _ _ _ (by decide) (by decide)
    · intro i hi hne
      exact testBit_land_not32_single src.flags 2 i hi hne
  · intro src ela_flags
    refine ⟨rfl, ?_, ?_, ?_, ?_, ?_, rfl⟩
    · exact land_clear_in _ _ _ (by decide) (by decide)
    · exact land_clear_out _ _ _ (by decide) (by decide)
    · exact land_clear_out _ _ _ (by decide) (by decide)
    · exact land_clear_out _ _ _ (by decide) (by decide)
    · intro i hi hne
      exact testBit_land_not32_single src.flags 2 i hi hne

/-- C8, on a concrete source: clearing the timeout of a libevent source and
of a CoreFoundation source whose flags are `READABLE | TIMEOUT | ONCE` keeps
bit 0 and bit 3 of the flag word. -/
theorem set_timeout_none_only_disables_timeout_witness :
    (Nat.testBit (Libevent._ela_event_set_timeout
        { Libevent.test_source with flags := 13 } none 8).2.flags 3
      = Nat.testBit (13 : Nat) 3) ∧
    (Nat.testBit (CF._ela_cf_set_timeout
        { CF.test_source with flags := 13 } none 8).2.flags 0
      = Nat.testBit (13 : Nat) 0) :=
  ⟨(set_timeout_none_only_disables_timeout.1
      { Libevent.test_source with flags := 13 } 8).2.2.2.2.2.1 3
      (by decide) (by decide),
   (set_timeout_none_only_disables_timeout.2
      { CF.test_source with flags := 13 } 8).2.2.2.2.2.1 0
      (by decide) (by decide)⟩

/-- C9, the code at the failing input: a CoreFoundation source holding the
descriptor object 11 and the run-loop source 12 is given a `set_fd` for which
CoreFoundation creates the descriptor object 21 and then no run-loop source.
The call returns `ENOMEM`, and the source it leaves is not the one before
the call: `fd_cf` is 21 and `fd_source` is `NULL`. In general a failed
`_ela_cf_set_fd` leaves the source with these two members overwritten; the
other three operations, `_ela_event_set_fd` and the two `set_timeout`, always
return 0. -/
theorem cf_set_fd_failure_mutates_source :
    CF.test_source_fd.fd_cf = 11 ∧ CF.test_source_fd.fd_source = 12 ∧
    (CF._ela_cf_set_fd 21 NULL CF.test_source_fd 0 ELA_EVENT_READABLE).1
      = ENOMEM ∧
    ENOMEM ≠ 0 ∧
    (CF._ela_cf_set_fd 21 NULL CF.test_source_fd 0 ELA_EVENT_READABLE).2
      = { CF.test_source_fd with fd_cf := 21, fd_source := NULL } ∧
    (CF._ela_cf_set_fd 21 NULL CF.test_source_fd 0 ELA_EVENT_READABLE).2
      ≠ CF.test_source_fd ∧
    (∀ (new_fd_cf : Ptr) (src : CF.ela_event_source) (fd : Int)
        (ela_flags : Nat),
      CF._ela_cf_set_fd new_fd_cf NULL src fd ela_flags
        = (ENOMEM, { src with fd_cf := new_fd_cf, fd_source := NULL })) ∧
    (∀ (current_base src_addr : Ptr) (src : Libevent.ela_event_source)
        (fd : Int) (ela_flags : Nat),
      (Libevent._ela_event_set_fd current_base src_addr src fd ela_flags).1 = 0) ∧
    (∀ (src : Libevent.ela_event_source) (tv : Option timeval)
        (ela_flags : Nat),
      (Libevent._ela_event_set_timeout src tv ela_flags).1 = 0) ∧
    (∀ (src : CF.ela_event_source) (tv : Option timeval) (ela_flags : Nat),
      (CF._ela_cf_set_timeout src tv ela_flags).1 = 0) := by
  refine ⟨by decide, by decide, by decide, by decide, by decide, by decide,
    ?_, ?_, ?_, ?_⟩
  · intro new_fd_cf src fd ela_flags
    rfl
  · intro current_base src_addr src fd ela_flags
    rfl
  · intro src tv ela_flags
    cases tv <;> rfl
  · intro src tv ela_flags
    cases tv <;> rfl

/-- C10, the code at the failing input: when libevent refuses the event
(`event_add` returns `-1`), `_ela_event_add`, the `add` operation of the
libevent backend, returns `ECANCELED`, which is neither 0 nor `ENOENT`. When
libevent accepts the event it returns 0, and `_ela_cf_add`, the `add`
operation of the CoreFoundation backend, always returns 0. -/
theorem libevent_add_returns_ecanceled :
    (∀ (ctx : Libevent.libevent_mainloop) (src : Libevent.ela_event_source),
      (Libevent._ela_event_add false ctx src).1 = ECANCELED) ∧
    (Libevent._ela_event_add false Libevent.test_loop
      (Libevent._ela_event_set_fd 0 77 Libevent.test_source 0
        ELA_EVENT_READABLE).2).1 = 125 ∧
    ECANCELED ≠ 0 ∧ ECANCELED ≠ ENOENT ∧
    (∀ (ctx : Libevent.libevent_mainloop) (src : Libevent.ela_event_source),
      (Libevent._ela_event_add true ctx src).1 = 0) ∧
    (∀ (now : Double) (w : CF.CFWorld) (ctx : CF.cf_mainloop)
        (src : CF.ela_event_source),
      (CF._ela_cf_add now w ctx src).1 = 0) := by
  refine ⟨?_, by decide, by decide, by decide, ?_, ?_⟩
  · intro ctx src
    rfl
  · intro ctx src
    rfl
  · intro now w ctx src
    rfl

/-! ## C arithmetic on `double`: values -/

/-- Values of the `double` operations: `(double)100` is `25 * 2^2`;
`500000 * 1e-6` is one half; `100000 * 1e-6` and `3 * 1e-6` are the doubles
`0x1.9999999999999p-4` and `0x1.92a737110e454p-19`, below one tenth and
above three millionths; an integer half-way between two doubles goes to the
even significand; and the sum of the smallest positive double with itself is
exact. -/
theorem double_arithmetic_values :
    Double.ofInt 100 = { m := 25, e := 2 } ∧
    Double.mul (Double.ofInt 500000) Double.micro = { m := 1, e := -1 } ∧
    Double.mul (Double.ofInt 100000) Double.micro
      = { m := 7205759403792793, e := -56 } ∧
    Double.mul (Double.ofInt 3) Double.micro
      = { m := 1770887431076117, e := -69 } ∧
    Double.ofInt (2 ^ 53 + 1) = { m := 1, e := 53 } ∧
    Double.ofInt (2 ^ 53 + 3) = { m := 2251799813685249, e := 2 } ∧
    Double.add { m := 1, e := -1074 } { m := 1, e := -1074 }
      = { m := 1, e := -1073 } := by
  refine ⟨by decide, by decide, by decide, by decide, by decide, by decide,
    by decide⟩

/-! ## CoreFoundation run loops: lemmas -/

theorem lor_land_of_right (a b k : Nat) (h : b &&& k = k) :
    (a ||| b) &&& k = k := by
  apply Nat.eq_of_testBit_eq
  intro i
  have h1 := congrArg (fun x => Nat.testBit x i) h
  simp only [Nat.testBit_and, Nat.testBit_or] at h1 ⊢
  revert h1
  cases Nat.testBit a i <;> cases Nat.testBit b i <;> cases Nat.testBit k i <;>
    simp

theorem cf_world_update_sources_self (w : CF.CFWorld) (rl : Ptr) :
    { w with sources := Function.update w.sources rl (w.sources rl) } = w := by
  cases w
  simp

theorem cf_fd_add_null (w : CF.CFWorld) (rl : Ptr) (src : CF.ela_event_source)
    (h : src.fd_source = NULL) : CF._fd_add w rl src = w := by
  unfold CF._fd_add
  rw [if_pos h]

theorem cf_fd_add_mem_sources (w : CF.CFWorld) (rl : Ptr)
    (src : CF.ela_event_source) (h : src.fd_source ≠ NULL) :
    src.fd_source ∈ (CF._fd_add w rl src).sources rl := by
  unfold CF._fd_add
  rw [if_neg h]
  simp only [CF.CFRunLoopContainsSource, CF.CFRunLoopAddSource,
    CF.CFFileDescriptorDisableCallBacks, CF.CFFileDescriptorEnableCallBacks]
  by_cases hm : src.fd_source ∈ w.sources rl <;> simp [hm]

theorem cf_fd_add_timers (w : CF.CFWorld) (rl : Ptr)
    (src : CF.ela_event_source) :
    (CF._fd_add w rl src).timers = w.timers ∧
    (CF._fd_add w rl src).fire_date = w.fire_date := by
  unfold CF._fd_add
  by_cases h : src.fd_source = NULL
  · rw [if_pos h]; exact ⟨rfl, rfl⟩
  · rw [if_neg h]
    simp only [CF.CFRunLoopContainsSource, CF.CFRunLoopAddSource,
      CF.CFFileDescriptorDisableCallBacks, CF.CFFileDescriptorEnableCallBacks]
    by_cases hm : src.fd_source ∈ w.sources rl <;> simp [hm]

theorem cf_fd_add_enabled (w : CF.CFWorld) (rl : Ptr)
    (src : CF.ela_event_source) (h : src.fd_source ≠ NULL) :
    (src.flags &&& ELA_EVENT_READABLE ≠ 0 →
      (CF._fd_add w rl src).enabled src.fd_cf
        &&& CF.kCFFileDescriptorReadCallBack
        = CF.kCFFileDescriptorReadCallBack) ∧
    (src.flags &&& ELA_EVENT_WRITABLE ≠ 0 →
      (CF._fd_add w rl src).enabled src.fd_cf
        &&& CF.kCFFileDescriptorWriteCallBack
        = CF.kCFFileDescriptorWriteCallBack) := by
  unfold CF._fd_add
  rw [if_neg h]
  simp only [CF.CFRunLoopContainsSource, CF.CFRunLoopAddSource,
    CF.CFFileDescriptorDisableCallBacks, CF.CFFileDescriptorEnableCallBacks]
  refine ⟨?_, ?_⟩
  · intro hr
    by_cases hm : src.fd_source ∈ w.sources rl <;>
      by_cases hw : src.flags &&& ELA_EVENT_WRITABLE ≠ 0 <;>
      simp only [hm, hw, hr, if_true, if_false, Function.update_same, ne_eq,
        not_true_eq_false, not_false_eq_true, decide_True, decide_False,
        Bool.not_true, Bool.not_false] <;>
      exact lor_land_of_right _ _ _ (by decide)
  · intro hw
    by_cases hm : src.fd_source ∈ w.sources rl <;>
      by_cases hr : src.flags &&& ELA_EVENT_READABLE ≠ 0 <;>
      simp only [hm, hw, hr, if_true, if_false, Function.update_same, ne_eq,
        not_true_eq_false, not_false_eq_true, decide_True, decide_False,
        Bool.not_true, Bool.not_false] <;>
      exact lor_land_of_right _ _ _ (by decide)

theorem cf_fd_remove_of_not_mem (w : CF.CFWorld) (rl : Ptr)
    (src : CF.ela_event_source) (h : src.fd_source ∉ w.sources rl) :
    CF._fd_remove w rl src = w := by
  unfold CF._fd_remove
  by_cases h0 : src.fd_source = NULL
  · rw [if_pos h0]
  · rw [if_neg h0]
    simp only [CF.CFRunLoopRemoveSource, List.erase_of_not_mem h]
    exact cf_world_update_sources_self w rl

theorem cf_fd_remove_not_mem (w : CF.CFWorld) (rl : Ptr)
    (src : CF.ela_event_source) (hn : (w.sources rl).Nodup)
    (h : src.fd_source ≠ NULL) :
    src.fd_source ∉ (CF._fd_remove w rl src).sources rl := by
  unfold CF._fd_remove
  rw [if_neg h]
  simp only [CF.CFRunLoopRemoveSource, Function.update_same]
  exact hn.not_mem_erase

theorem cf_fd_remove_timers (w : CF.CFWorld) (rl : Ptr)
    (src : CF.ela_event_source) :
    (CF._fd_remove w rl src).timers = w.timers := by
  unfold CF._fd_remove
  by_cases h0 : src.fd_source = NULL
  · rw [if_pos h0]
  · rw [if_neg h0]; rfl

theorem cf_timeout_set_mem_timers (now : Double) (w : CF.CFWorld) (rl : Ptr)
    (src : CF.ela_event_source) :
    src.timeout_source ∈ (CF._timeout_set now w rl src).timers rl := by
  unfold CF._timeout_set
  simp only [CF.CFRunLoopContainsTimer, CF.CFRunLoopRemoveTimer,
    CF.CFRunLoopTimerSetNextFireDate, CF.CFRunLoopAddTimer]
  by_cases h : src.timeout_source ∈ w.timers rl
  · simp [h]
    split <;> simp_all
  · simp [h]

theorem cf_timeout_set_fire_date (now : Double) (w : CF.CFWorld) (rl : Ptr)
    (src : CF.ela_event_source) :
    (CF._timeout_set now w rl src).fire_date src.timeout_source
      = Double.add now (CF.interval src.tv) := by
  unfold CF._timeout_set
  simp only [CF.CFRunLoopContainsTimer, CF.CFRunLoopRemoveTimer,
    CF.CFRunLoopTimerSetNextFireDate, CF.CFRunLoopAddTimer, CF.interval]
  by_cases h : src.timeout_source ∈ w.timers rl
  · simp [h]
    split <;> simp_all
  · simp [h]

theorem cf_timeout_set_frame (now : Double) (w : CF.CFWorld) (rl : Ptr)
    (src : CF.ela_event_source) :
    (CF._timeout_set now w rl src).sources = w.sources ∧
    (CF._timeout_set now w rl src).enabled = w.enabled := by
  unfold CF._timeout_set
  simp only [CF.CFRunLoopContainsTimer, CF.CFRunLoopRemoveTimer,
    CF.CFRunLoopTimerSetNextFireDate, CF.CFRunLoopAddTimer]
  by_cases h : src.timeout_source ∈ w.timers rl
  · simp [h]
    split <;> simp_all
  · simp [h]

theorem cf_world_update_timers_self (w : CF.CFWorld) (rl : Ptr) :
    { w with timers := Function.update w.timers rl (w.timers rl) } = w := by
  cases w
  simp

theorem cf_remove_timer_step_not_mem (w : CF.CFWorld) (rl timer : Ptr)
    (hn : (w.timers rl).Nodup) :
    timer ∉ (if CF.CFRunLoopContainsTimer w rl timer = true then
        CF.CFRunLoopRemoveTimer w rl timer else w).timers rl := by
  by_cases hm : timer ∈ w.timers rl
  · simp only [CF.CFRunLoopContainsTimer, hm, decide_True, if_true,
      CF.CFRunLoopRemoveTimer, Function.update_same]
    exact hn.not_mem_erase
  · simp only [CF.CFRunLoopContainsTimer, hm, decide_False, if_false]
    simpa using hm

theorem cf_remove_timer_step_sources (w : CF.CFWorld) (rl timer : Ptr) :
    (if CF.CFRunLoopContainsTimer w rl timer = true then
        CF.CFRunLoopRemoveTimer w rl timer else w).sources = w.sources := by
  by_cases hm : timer ∈ w.timers rl
  · simp only [CF.CFRunLoopContainsTimer, hm, decide_True, if_true,
      CF.CFRunLoopRemoveTimer]
  · simp only [CF.CFRunLoopContainsTimer, hm, decide_False, if_false]
    simp

/-! ## CoreFoundation run loops hold each object once: `add` keeps it so -/

theorem nodup_update (f : Ptr → List Ptr) (rl : Ptr) (l : List Ptr)
    (hf : ∀ r, (f r).Nodup) (hl : l.Nodup) :
    ∀ r, (Function.update f rl l r).Nodup := by
  intro r
  by_cases h : r = rl
  · subst h
    rw [Function.update_same]
    exact hl
  · rw [Function.update_noteq h]
    exact hf r

theorem cf_fd_add_nodup (w : CF.CFWorld) (rl : Ptr) (src : CF.ela_event_source)
    (h : ∀ r, (w.sources r).Nodup) :
    ∀ r, ((CF._fd_add w rl src).sources r).Nodup := by
  unfold CF._fd_add
  by_cases h0 : src.fd_source = NULL
  · rw [if_pos h0]; exact h
  · rw [if_neg h0]
    simp only [CF.CFRunLoopContainsSource, CF.CFRunLoopAddSource,
      CF.CFFileDescriptorDisableCallBacks, CF.CFFileDescriptorEnableCallBacks]
    by_cases hm : src.fd_source ∈ w.sources rl
    · simp [hm]
      exact h
    · simp [hm]
      apply nodup_update _ _ _ h
      exact List.Nodup.append (h rl) (List.nodup_singleton _) (by simpa using hm)

theorem cf_timeout_set_nodup (now : Double) (w : CF.CFWorld) (rl : Ptr)
    (src : CF.ela_event_source) (h : ∀ r, (w.timers r).Nodup) :
    ∀ r, ((CF._timeout_set now w rl src).timers r).Nodup := by
  unfold CF._timeout_set
  simp only [CF.CFRunLoopContainsTimer, CF.CFRunLoopRemoveTimer,
    CF.CFRunLoopTimerSetNextFireDate, CF.CFRunLoopAddTimer]
  by_cases hm : src.timeout_source ∈ w.timers rl
  · have he : src.timeout_source ∉ (w.timers rl).erase src.timeout_source :=
      (h rl).not_mem_erase
    simp [hm, he]
    apply nodup_update _ _ _ h
    exact List.Nodup.append ((h rl).erase _) (List.nodup_singleton _)
      (by simpa using he)
  · simp [hm]
    apply nodup_update _ _ _ h
    exact List.Nodup.append (h rl) (List.nodup_singleton _) (by simpa using hm)

theorem cf_add_preserves_nodup (now : Double) (w : CF.CFWorld) (ctx : CF.cf_mainloop)
    (src : CF.ela_event_source)
    (h : ∀ r, (w.sources r).Nodup ∧ (w.timers r).Nodup) :
    ∀ r, ((CF._ela_cf_add now w ctx src).2.sources r).Nodup ∧
      ((CF._ela_cf_add now w ctx src).2.timers r).Nodup := by
  intro r
  unfold CF._ela_cf_add
  simp only
  have hs := cf_fd_add_nodup w ctx.runloop src (fun r => (h r).1)
  have ht : ∀ r, ((CF._fd_add w ctx.runloop src).timers r).Nodup := by
    intro r
    rw [(cf_fd_add_timers w ctx.runloop src).1]
    exact (h r).2
  split_ifs
  · refine ⟨?_, cf_timeout_set_nodup now _ ctx.runloop src ht r⟩
    rw [(cf_timeout_set_frame _ _ _ _).1]
    exact hs r
  · exact ⟨hs r, ht r⟩

/-! ## Registration with the loop: the claims -/

/-- C11, the code at the failing input: the CoreFoundation scenario
`add; set_fd(5, READABLE); remove` on a source whose first `set_fd` created
the descriptor object 11 and the run-loop source 12 and whose second
`set_fd` created 21 and 22. After `add` the run loop 7 contains the run-loop
source 12 of the source, with the read callback of 11 enabled: the source is
registered. `remove` then returns 0 and the run loop still contains 12, with
the read callback of 11 still enabled: the fd watch of the source is left
registered. What `remove` takes away is the handle the source holds now, 22,
which was never in the run loop. In both backends `remove` returns 0 on
every source. -/
theorem cf_remove_leaves_replaced_watch :
    CF.test_source_fd.fd_source = 12 ∧
    CF.test_source_fd.fd_cf = 11 ∧
    (CF._ela_cf_add 100 CF.test_world CF.test_loop
      CF.test_source_fd).2.sources 7 = [12] ∧
    (CF._ela_cf_add 100 CF.test_world CF.test_loop
      CF.test_source_fd).2.enabled 11 = CF.kCFFileDescriptorReadCallBack ∧
    (CF._ela_cf_set_fd 21 22 CF.test_source_fd 5 ELA_EVENT_READABLE)
      = (0, CF.test_source_fd2) ∧
    CF.test_source_fd2.fd_source = 22 ∧
    (CF._ela_cf_remove
      (CF._ela_cf_add 100 CF.test_world CF.test_loop CF.test_source_fd).2
      CF.test_loop CF.test_source_fd2).1 = 0 ∧
    (CF._ela_cf_remove
      (CF._ela_cf_add 100 CF.test_world CF.test_loop CF.test_source_fd).2
      CF.test_loop CF.test_source_fd2).2.sources 7 = [12] ∧
    (CF._ela_cf_remove
      (CF._ela_cf_add 100 CF.test_world CF.test_loop CF.test_source_fd).2
      CF.test_loop CF.test_source_fd2).2.enabled 11
      = CF.kCFFileDescriptorReadCallBack ∧
    (∀ (w : CF.CFWorld) (ctx : CF.cf_mainloop) (src : CF.ela_event_source),
      (CF._ela_cf_remove w ctx src).1 = 0) ∧
    (∀ src : Libevent.ela_event_source,
      (Libevent._ela_event_remove src).1 = 0) := by
  refine ⟨by decide, by decide, by decide, by decide, by decide, by decide,
    by decide, by decide, by decide, ?_, ?_⟩
  · intro w ctx src
    rfl
  · intro src
    rfl

/-- The handles a CoreFoundation source holds when `remove` is called: when
neither is in the run loop `remove` changes nothing, and in a run loop that
holds each object once neither is in the run loop afterwards. -/
theorem cf_remove_held_handles (w : CF.CFWorld) (ctx : CF.cf_mainloop)
    (src : CF.ela_event_source) :
    (src.fd_source ∉ w.sources ctx.runloop →
      src.timeout_source ∉ w.timers ctx.runloop →
      (CF._ela_cf_remove w ctx src).2 = w) ∧
    ((w.sources ctx.runloop).Nodup → src.fd_source ≠ NULL →
      src.fd_source ∉ (CF._ela_cf_remove w ctx src).2.sources ctx.runloop) ∧
    ((w.timers ctx.runloop).Nodup →
      src.timeout_source
        ∉ (CF._ela_cf_remove w ctx src).2.timers ctx.runloop) := by
  refine ⟨?_, ?_, ?_⟩
  · intro hs ht
    unfold CF._ela_cf_remove
    simp only [cf_fd_remove_of_not_mem w ctx.runloop src hs,
      CF.CFRunLoopContainsTimer, ht, decide_False, if_false]
    rfl
  · intro hn h0
    unfold CF._ela_cf_remove
    simp only
    rw [cf_remove_timer_step_sources]
    exact cf_fd_remove_not_mem w ctx.runloop src hn h0
  · intro hn
    unfold CF._ela_cf_remove
    simp only
    apply cf_remove_timer_step_not_mem
    rw [cf_fd_remove_timers]
    exact hn

/-! ## Callbacks: lemmas -/

theorem libevent_real_add_frame (ok : Bool) (src : Libevent.ela_event_source) :
    (Libevent._real_add ok src).2.priv = src.priv ∧
    (Libevent._real_add ok src).2.flags = src.flags ∧
    (Libevent._real_add ok src).2.timeout = src.timeout ∧
    (Libevent._real_add ok src).2.handler = src.handler := by
  cases ok <;> exact ⟨rfl, rfl, rfl, rfl⟩

theorem libevent_cb_unfold (ok : Bool)
    (handler : ela_handler_func Libevent.State) (fd : Int) (ev_flags : Nat)
    (s : Libevent.State) :
    Libevent._ela_event_cb ok handler fd ev_flags s
      = Libevent.call_handler handler fd (Libevent.reason_mask ev_flags)
          s.src.priv
          (if s.src.flags &&& ELA_EVENT_TIMEOUT ≠ 0
              ∧ ¬ (s.src.flags &&& ELA_EVENT_ONCE ≠ 0) then
            { s with src := (Libevent._real_add ok s.src).2 }
          else s) := by
  have hmask :
      (if ev_flags &&& Libevent.EV_TIMEOUT ≠ 0 then
          (if ev_flags &&& Libevent.EV_WRITE ≠ 0 then
              (if ev_flags &&& Libevent.EV_READ ≠ 0 then
                  0 ||| ELA_EVENT_READABLE else 0) ||| ELA_EVENT_WRITABLE
            else (if ev_flags &&& Libevent.EV_READ ≠ 0 then
                  0 ||| ELA_EVENT_READABLE else 0)) ||| ELA_EVENT_TIMEOUT
        else (if ev_flags &&& Libevent.EV_WRITE ≠ 0 then
              (if ev_flags &&& Libevent.EV_READ ≠ 0 then
                  0 ||| ELA_EVENT_READABLE else 0) ||| ELA_EVENT_WRITABLE
            else (if ev_flags &&& Libevent.EV_READ ≠ 0 then
                  0 ||| ELA_EVENT_READABLE else 0)))
        = Libevent.reason_mask ev_flags := by
    unfold Libevent.reason_mask
    split_ifs <;> decide
  unfold Libevent._ela_event_cb
  simp only [hmask]
  by_cases hc : s.src.flags &&& ELA_EVENT_TIMEOUT ≠ 0
      ∧ ¬ (s.src.flags &&& ELA_EVENT_ONCE ≠ 0)
  · rw [if_pos hc]
    simp only [(libevent_real_add_frame ok s.src).1]
  · rw [if_neg hc]

theorem cf_fd_callback_mask (reason : Nat) :
    (if reason &&& CF.kCFFileDescriptorWriteCallBack ≠ 0 then
        (if reason &&& CF.kCFFileDescriptorReadCallBack ≠ 0 then
            0 ||| ELA_EVENT_READABLE else 0) ||| ELA_EVENT_WRITABLE
      else (if reason &&& CF.kCFFileDescriptorReadCallBack ≠ 0 then
            0 ||| ELA_EVENT_READABLE else 0))
      = CF.reason_mask reason := by
  unfold CF.reason_mask
  split_ifs <;> decide

theorem cf_source_release_live (s : CF.State) (h : s.src.ref - 1 ≠ 0) :
    CF.source_release s
      = (s.src.ref - 1, { s with src := { s.src with ref := s.src.ref - 1 } }) := by
  unfold CF.source_release
  simp only [if_neg h]

theorem cf_source_release_last (s : CF.State) (h : s.src.ref - 1 = 0) :
    CF.source_release s
      = (0, CF.free { s with src := { s.src with ref := s.src.ref - 1 } }) := by
  unfold CF.source_release
  simp only [h, if_true]

/-- The run of `fd_cf_callback` after a handler that returns and leaves the
source referenced: the callback gives up its reference and arms the watches
as the flags say. -/
theorem cf_fd_callback_live (now : Double) (current : Ptr)
    (handler : CF.ela_handler_func) (reason : Nat) (s A : CF.State)
    (h : CF.at_handler_return handler reason s = Except.ok A)
    (hlive : A.src.ref - 1 ≠ 0) :
    CF.fd_cf_callback now current handler reason s
      = Except.ok
        { A with
          src := { A.src with ref := A.src.ref - 1 },
          w :=
            if A.src.flags &&& ELA_EVENT_TIMEOUT ≠ 0 then
              CF._timeout_set now
                (if A.src.flags &&& ELA_EVENT_ONCE ≠ 0 then
                  CF._fd_remove A.w current A.src
                else CF._fd_add A.w current A.src)
                current A.src
            else
              (if A.src.flags &&& ELA_EVENT_ONCE ≠ 0 then
                CF._fd_remove A.w current A.src
              else CF._fd_add A.w current A.src) } := by
  unfold CF.at_handler_return at h
  unfold CF.fd_cf_callback
  simp only [cf_fd_callback_mask]
  have h2 : CF.call_handler handler (CF.source_ref s).src.fd
      (CF.reason_mask reason) (CF.source_ref s).src.priv (CF.source_ref s)
      = Except.ok A := h
  rw [h2]
  simp only [cf_source_release_live A hlive]
  rw [if_pos hlive]
  rfl

/-- The run of `fd_cf_callback` after a handler that returns and leaves the
source with the reference of the callback only: the callback releases the
storage. -/
theorem cf_fd_callback_last (now : Double) (current : Ptr)
    (handler : CF.ela_handler_func) (reason : Nat) (s A : CF.State)
    (h : CF.at_handler_return handler reason s = Except.ok A)
    (hlast : A.src.ref - 1 = 0) :
    CF.fd_cf_callback now current handler reason s
      = Except.ok
        (CF.free { A with src := { A.src with ref := A.src.ref - 1 } }) := by
  unfold CF.at_handler_return at h
  unfold CF.fd_cf_callback
  simp only [cf_fd_callback_mask]
  have h2 : CF.call_handler handler (CF.source_ref s).src.fd
      (CF.reason_mask reason) (CF.source_ref s).src.priv (CF.source_ref s)
      = Except.ok A := h
  rw [h2]
  simp only [cf_source_release_last A hlast, ne_eq, not_true_eq_false,
    if_false]

/-- Every run of the CoreFoundation `_ela_source_free` ends in the
`CFRelease` of the timer handle that `elacf_drop_timer_source` has cleared:
the state reached there. -/
theorem cf_source_free_crash (ctx : CF.cf_mainloop) (s : CF.State) :
    CF._ela_source_free ctx s
      = Except.error
        { w :=
            if CF.CFRunLoopContainsTimer s.w ctx.runloop NULL then
              CF.CFRunLoopRemoveTimer s.w ctx.runloop NULL
            else s.w,
          src := { s.src with
            fd_source := NULL, timeout_source := NULL,
            flags := s.src.flags &&& not32 ELA_EVENT_TIMEOUT },
          released :=
            s.released
              ++ (if s.src.fd_source ≠ NULL then [s.src.fd_source] else []),
          trace := s.trace } := by
  obtain ⟨w, src, released, trace⟩ := s
  obtain ⟨ref, flags, fd, fd_cf, fd_source, tv, timeout_source, handler, priv⟩
    := src
  unfold CF._ela_source_free CF.elacf_drop_fd_source
    CF.elacf_drop_timer_source CF.CFRelease
  by_cases h1 : fd_source = NULL
  · subst h1
    by_cases h2 : CF.CFRunLoopContainsTimer w ctx.runloop NULL = true <;>
      simp [h2]
  · by_cases h2 : CF.CFRunLoopContainsTimer w ctx.runloop NULL = true <;>
      simp [h1, h2]

/-! ## Firing: the claims -/

/-- C12, the code at the failing input: a CoreFoundation source with a
timeout only, set with `ELA_EVENT_ONCE` and added to the run loop 7. When
its timer fires at time 101, `cf_timeout_callback` calls the handler once
with the mask `TIMEOUT` and leaves the timer 31 in the run loop with a new
fire date one interval later, `101 + 0.5` computed in `double`, which is
`203 * 2^-1`: the one-shot timeout is armed again. -/
theorem cf_timeout_callback_rearms_once_timer :
    CF.test_source_timeout_once.flags = ELA_EVENT_TIMEOUT ||| ELA_EVENT_ONCE ∧
    CF.test_state_timeout_once.w.sources 7 = [] ∧
    CF.test_state_timeout_once.w.timers 7 = [31] ∧
    CF.crashed (CF.cf_timeout_callback 101 7 CF.noop_handler
      CF.test_state_timeout_once) = false ∧
    (CF.final (CF.cf_timeout_callback 101 7 CF.noop_handler
      CF.test_state_timeout_once)).trace
      = [HandlerEvent.call 0 ELA_EVENT_TIMEOUT 51, HandlerEvent.ret] ∧
    (CF.final (CF.cf_timeout_callback 101 7 CF.noop_handler
      CF.test_state_timeout_once)).w.timers 7 = [31] ∧
    (CF.final (CF.cf_timeout_callback 101 7 CF.noop_handler
      CF.test_state_timeout_once)).w.fire_date 31
      = Double.add 101 (CF.interval { tv_sec := 0, tv_usec := 500000 }) ∧
    Double.add 101 (CF.interval { tv_sec := 0, tv_usec := 500000 })
      = { m := 203, e := -1 } := by
  refine ⟨by decide, by decide, by decide, by decide, by decide, by decide,
    ?_, by decide⟩
  exact cf_timeout_set_fire_date 101 CF.test_state_timeout_once.w 7
    CF.test_source_timeout_once

/-- C13, refuted: a libevent source given `set_fd(0, READABLE | ONCE)`,
`set_timeout({0, 500000}, 0)`, `set_timeout(NULL, 0)` and `add` is
registered, its flags are `READABLE` alone, without `ONCE`, and its event
has no `EV_PERSIST`; when its descriptor becomes readable the handler is called once and the fd watch is
not registered afterwards. And a registered source with flags
`READABLE | TIMEOUT` is left without any watch when libevent refuses the
`event_add` made by the callback. -/
theorem libevent_watch_not_rearmed :
    Libevent.test_source_edge.flags = ELA_EVENT_READABLE ∧
    Libevent.test_source_edge.flags &&& ELA_EVENT_ONCE = 0 ∧
    Libevent.test_source_edge.event.ev_events &&& Libevent.EV_PERSIST = 0 ∧
    Libevent.test_source_edge.event.inserted = true ∧
    (Libevent.dispatch_fd_ready true Libevent.noop_handler Libevent.EV_READ
      { src := Libevent.test_source_edge, trace := [] }).trace
      = [HandlerEvent.call 0 ELA_EVENT_READABLE 51, HandlerEvent.ret] ∧
    (Libevent.dispatch_fd_ready true Libevent.noop_handler Libevent.EV_READ
      { src := Libevent.test_source_edge, trace := [] }).src.event.inserted
      = false ∧
    Libevent.test_source_both.flags = ELA_EVENT_READABLE ||| ELA_EVENT_TIMEOUT ∧
    Libevent.test_source_both.event.inserted = true ∧
    (Libevent.dispatch_fd_ready false Libevent.noop_handler Libevent.EV_READ
      { src := Libevent.test_source_both, trace := [] }).src.event.inserted
      = false ∧
    (Libevent.dispatch_fd_ready false Libevent.noop_handler Libevent.EV_READ
      { src := Libevent.test_source_both, trace := [] }).src.event.timer
      = none := by
  refine ⟨by decide, by decide, by decide, by decide, by decide, by decide,
    by decide, by decide, by decide, by decide⟩

/-- C13, amended: persistent watches are armed again without a call to
`add`, under the conditions the code reads.
In the libevent backend `set_fd` sets the event with `EV_PERSIST` exactly
when its flags argument has no `ONCE`; a firing of a source whose flags have
`TIMEOUT` and no `ONCE` makes the callback register the event again, with
the interval stored by `set_timeout`, before the handler runs (libevent
accepting the `event_add`); and for a source without `TIMEOUT` whose event
has `EV_PERSIST`, the handler is called on a source whose event is still
registered as it was.
In the CoreFoundation backend, for a source whose handles are not `NULL`,
when the handler called by `fd_cf_callback` returns, leaving the source
referenced and without `ONCE`, the callback returns and after it the
run-loop source is in the current run loop with the callbacks for the
configured `READABLE` / `WRITABLE` conditions enabled, and when `TIMEOUT` is
set the timer is in the run loop with the fire date that the `double`
addition of `now` and of the stored interval, converted to `double`, gives;
`cf_timeout_callback` arms the timer in the same way before it calls the
handler and leaves the fd watch as it is. -/
theorem persistent_watches_rearm :
    (∀ (current_base src_addr : Ptr) (src : Libevent.ela_event_source)
        (fd : Int) (ela_flags : Nat),
      ((Libevent._ela_event_set_fd current_base src_addr src fd
          ela_flags).2.event.ev_events &&& Libevent.EV_PERSIST ≠ 0
        ↔ ela_flags &&& ELA_EVENT_ONCE = 0)) ∧
    (∀ (handler : ela_handler_func Libevent.State) (fd : Int) (ev_flags : Nat)
        (s : Libevent.State),
      s.src.flags &&& ELA_EVENT_TIMEOUT ≠ 0 →
      s.src.flags &&& ELA_EVENT_ONCE = 0 →
      Libevent._ela_event_cb true handler fd ev_flags s
        = Libevent.call_handler handler fd (Libevent.reason_mask ev_flags)
            s.src.priv { s with src := (Libevent._real_add true s.src).2 } ∧
      (Libevent._real_add true s.src).2.event.timer = some s.src.timeout ∧
      (s.src.event.ev_events
          &&& (Libevent.EV_READ ||| Libevent.EV_WRITE ||| Libevent.EV_SIGNAL) ≠ 0 →
        (Libevent._real_add true s.src).2.event.inserted = true)) ∧
    (∀ (ok : Bool) (handler : ela_handler_func Libevent.State) (res : Nat)
        (s : Libevent.State),
      s.src.flags &&& ELA_EVENT_TIMEOUT = 0 →
      s.src.event.ev_events &&& Libevent.EV_PERSIST ≠ 0 →
      Libevent.dispatch_fd_ready ok handler res s
        = Libevent.call_handler handler s.src.event.ev_fd
            (Libevent.reason_mask res) s.src.priv s) ∧
    (∀ (now : Double) (current : Ptr) (handler : CF.ela_handler_func)
        (reason : Nat) (s A : CF.State),
      CF.at_handler_return handler reason s = Except.ok A →
      A.src.ref - 1 ≠ 0 →
      A.src.flags &&& ELA_EVENT_ONCE = 0 →
      CF.crashed (CF.fd_cf_callback now current handler reason s) = false ∧
      (A.src.fd_source ≠ NULL → A.src.fd_cf ≠ NULL →
        A.src.fd_source
          ∈ (CF.final (CF.fd_cf_callback now current handler reason
              s)).w.sources current ∧
        (A.src.flags &&& ELA_EVENT_READABLE ≠ 0 →
          (CF.final (CF.fd_cf_callback now current handler reason
              s)).w.enabled A.src.fd_cf
            &&& CF.kCFFileDescriptorReadCallBack
            = CF.kCFFileDescriptorReadCallBack) ∧
        (A.src.flags &&& ELA_EVENT_WRITABLE ≠ 0 →
          (CF.final (CF.fd_cf_callback now current handler reason
              s)).w.enabled A.src.fd_cf
            &&& CF.kCFFileDescriptorWriteCallBack
            = CF.kCFFileDescriptorWriteCallBack)) ∧
      (A.src.flags &&& ELA_EVENT_TIMEOUT ≠ 0 → A.src.timeout_source ≠ NULL →
        A.src.timeout_source
          ∈ (CF.final (CF.fd_cf_callback now current handler reason
              s)).w.timers current ∧
        (CF.final (CF.fd_cf_callback now current handler reason
            s)).w.fire_date A.src.timeout_source
          = Double.add now (CF.interval A.src.tv))) ∧
    (∀ (now : Double) (current : Ptr) (handler : CF.ela_handler_func)
        (s : CF.State),
      s.src.flags &&& ELA_EVENT_TIMEOUT ≠ 0 →
      s.src.timeout_source ≠ NULL →
      CF.cf_timeout_callback now current handler s
        = CF.call_handler handler s.src.fd ELA_EVENT_TIMEOUT s.src.priv
            { s with w := CF._timeout_set now s.w current s.src } ∧
      s.src.timeout_source
        ∈ (CF._timeout_set now s.w current s.src).timers current ∧
      (CF._timeout_set now s.w current s.src).fire_date s.src.timeout_source
        = Double.add now (CF.interval s.src.tv) ∧
      (CF._timeout_set now s.w current s.src).sources = s.w.sources ∧
      (CF._timeout_set now s.w current s.src).enabled = s.w.enabled) := by
  refine ⟨?_, ?_, ?_, ?_, ?_⟩
  · intro current_base src_addr src fd ela_flags
    unfold Libevent._ela_event_set_fd Libevent.event_set
    simp only
    by_cases h8 : ela_flags &&& ELA_EVENT_ONCE = 0
    · simp only [h8, ne_eq, not_true_eq_false, if_false, iff_true]
      split_ifs <;> decide
    · simp only [h8, ne_eq, not_false_eq_true, if_true, iff_false, not_not]
      split_ifs <;> decide
  · intro handler fd ev_flags s ht ho
    have hc : s.src.flags &&& ELA_EVENT_TIMEOUT ≠ 0
        ∧ ¬ (s.src.flags &&& ELA_EVENT_ONCE ≠ 0) :=
      ⟨ht, fun hne => hne ho⟩
    refine ⟨?_, ?_, ?_⟩
    · rw [libevent_cb_unfold, if_pos hc]
    · have ht2 : ¬ (s.src.flags &&& ELA_EVENT_TIMEOUT = 0) := ht
      simp only [Libevent._real_add, Libevent.event_add, Libevent.event_del,
        if_neg ht2]
      rfl
    · intro hev
      simp only [Libevent._real_add, Libevent.event_add, Libevent.event_del]
      simp [hev]
  · intro ok handler res s ht hp
    unfold Libevent.dispatch_fd_ready
    have hp2 : ¬ (s.src.event.ev_events &&& Libevent.EV_PERSIST = 0) := hp
    have hc : ¬ (s.src.flags &&& ELA_EVENT_TIMEOUT ≠ 0
        ∧ ¬ (s.src.flags &&& ELA_EVENT_ONCE ≠ 0)) := fun h => h.1 ht
    simp only [if_neg hp2]
    rw [libevent_cb_unfold, if_neg hc]
  · intro now current handler reason s A hA hlive ho
    have ho2 : ¬ (A.src.flags &&& ELA_EVENT_ONCE ≠ 0) := fun hne => hne ho
    have hcb := cf_fd_callback_live now current handler reason s A hA hlive
    simp only [if_neg ho2] at hcb
    rw [hcb]
    refine ⟨rfl, ?_, ?_⟩
    · intro hsrc _
      have hadd := cf_fd_add_mem_sources A.w current A.src hsrc
      have hen := cf_fd_add_enabled A.w current A.src hsrc
      simp only [CF.final]
      by_cases ht : A.src.flags &&& ELA_EVENT_TIMEOUT ≠ 0
      · rw [if_pos ht, (cf_timeout_set_frame _ _ _ _).1,
          (cf_timeout_set_frame _ _ _ _).2]
        exact ⟨hadd, hen.1, hen.2⟩
      · rw [if_neg ht]
        exact ⟨hadd, hen.1, hen.2⟩
    · intro ht _
      simp only [CF.final]
      rw [if_pos ht]
      exact ⟨cf_timeout_set_mem_timers _ _ _ _, cf_timeout_set_fire_date _ _ _ _⟩
  · intro now current handler s ht _
    refine ⟨?_, cf_timeout_set_mem_timers _ _ _ _,
      cf_timeout_set_fire_date _ _ _ _, (cf_timeout_set_frame _ _ _ _).1,
      (cf_timeout_set_frame _ _ _ _).2⟩
    unfold CF.cf_timeout_callback
    simp only [if_pos ht]

/-- C13, amended, on concrete sources: the registered libevent source with
flags `READABLE | TIMEOUT` is registered again with its stored interval; the
registered CoreFoundation source with flags `READABLE | TIMEOUT`, whose
handler does nothing, has its run-loop source and its timer in the run loop
after `fd_cf_callback` at time 101, with the fire date `203 * 2^-1`, and its
timer armed by `cf_timeout_callback`; and at time 100 a timer with the
interval `{0, 100000}` is given the fire date `3521955646092083 * 2^-45`,
the double nearest to the sum of 100 and of the double `100000 * 1e-6`. -/
theorem persistent_watches_rearm_witness :
    (Libevent._real_add true Libevent.test_source_both).2.event.timer
      = some Libevent.test_source_both.timeout ∧
    Libevent.dispatch_fd_ready true Libevent.noop_handler Libevent.EV_READ
        { src := { Libevent.test_source_both with flags := 1 }, trace := [] }
      = Libevent.call_handler Libevent.noop_handler 0
          (Libevent.reason_mask Libevent.EV_READ) 51
          { src := { Libevent.test_source_both with flags := 1 }, trace := [] } ∧
    CF.crashed (CF.fd_cf_callback 101 7 CF.noop_handler 1 CF.test_state_both)
      = false ∧
    12 ∈ (CF.final (CF.fd_cf_callback 101 7 CF.noop_handler 1
          CF.test_state_both)).w.sources 7 ∧
    31 ∈ (CF.final (CF.fd_cf_callback 101 7 CF.noop_handler 1
          CF.test_state_both)).w.timers 7 ∧
    (CF.final (CF.fd_cf_callback 101 7 CF.noop_handler 1
          CF.test_state_both)).w.fire_date 31 = { m := 203, e := -1 } ∧
    CF.test_state_both.src.timeout_source
      ∈ (CF._timeout_set 101 CF.test_state_both.w 7
          CF.test_state_both.src).timers 7 ∧
    (CF._timeout_set 100 CF.test_world 7
        (CF._ela_cf_set_timeout CF.test_source
          (some { tv_sec := 0, tv_usec := 100000 }) 0).2).fire_date 31
      = { m := 3521955646092083, e := -45 } :=
  ⟨(persistent_watches_rearm.2.1 Libevent.noop_handler 0 Libevent.EV_READ
      { src := Libevent.test_source_both, trace := [] }
      (by decide) (by decide)).2.1,
   persistent_watches_rearm.2.2.1 true Libevent.noop_handler Libevent.EV_READ
      { src := { Libevent.test_source_both with flags := 1 }, trace := [] }
      (by decide) (by decide),
   (persistent_watches_rearm.2.2.2.1 101 7 CF.noop_handler 1
      CF.test_state_both
      (CF.final (CF.at_handler_return CF.noop_handler 1 CF.test_state_both))
      rfl (by decide) (by decide)).1,
   ((persistent_watches_rearm.2.2.2.1 101 7 CF.noop_handler 1
      CF.test_state_both
      (CF.final (CF.at_handler_return CF.noop_handler 1 CF.test_state_both))
      rfl (by decide) (by decide)).2.1 (by decide) (by decide)).1,
   ((persistent_watches_rearm.2.2.2.1 101 7 CF.noop_handler 1
      CF.test_state_both
      (CF.final (CF.at_handler_return CF.noop_handler 1 CF.test_state_both))
      rfl (by decide) (by decide)).2.2 (by decide) (by decide)).1,
   (((persistent_watches_rearm.2.2.2.1 101 7 CF.noop_handler 1
      CF.test_state_both
      (CF.final (CF.at_handler_return CF.noop_handler 1 CF.test_state_both))
      rfl (by decide) (by decide)).2.2 (by decide) (by decide)).2).trans
      (by decide),
   (persistent_watches_rearm.2.2.2.2 101 7 CF.noop_handler
      CF.test_state_both (by decide) (by decide)).2.1,
   ((persistent_watches_rearm.2.2.2.2 100 7 CF.noop_handler
      { w := CF.test_world,
        src := (CF._ela_cf_set_timeout CF.test_source
          (some { tv_sec := 0, tv_usec := 100000 }) 0).2,
        released := [], trace := [] }
      (by decide) (by decide)).2.2.1).trans (by decide)⟩

/-! ## Freeing a source: lemmas -/

theorem cf_fd_remove_null (w : CF.CFWorld) (rl : Ptr)
    (src : CF.ela_event_source) (h : src.fd_source = NULL) :
    CF._fd_remove w rl src = w := by
  unfold CF._fd_remove
  rw [if_pos h]

/-- C15, the code at the failing input: the CoreFoundation source registered
on the run loop 7 with its run-loop source 12 and its timer 31 is freed.
`_ela_source_free` does not return: after the `CFRelease` of the run-loop
source 12 it clears the timer handle and then hands the cleared handle,
`NULL`, to `CFRelease`, where the run ends. There the run loop still
contains the run-loop source 12 and the timer 31, the only object released
is 12, the timer 31 was neither removed nor released before its handle was
cleared, and the storage of the source is not released. This is so for
every source and every loop state: the run ends there, the run-loop sources
are as they were, the timers of each run loop are as they were, but for
`NULL`, and nothing was released but, at most, the run-loop source. The
libevent
`_ela_source_free`, on any source, leaves the event registered neither for
its descriptor nor for a timeout before it releases the storage. -/
theorem cf_source_free_leaves_watches :
    CF.test_state_both.w.sources 7 = [12] ∧
    CF.test_state_both.w.timers 7 = [31] ∧
    CF.crashed (CF._ela_source_free CF.test_loop CF.test_state_both) = true ∧
    (CF.final (CF._ela_source_free CF.test_loop
      CF.test_state_both)).w.sources 7 = [12] ∧
    (CF.final (CF._ela_source_free CF.test_loop
      CF.test_state_both)).w.timers 7 = [31] ∧
    (CF.final (CF._ela_source_free CF.test_loop CF.test_state_both)).released
      = [12] ∧
    31 ∉ (CF.final (CF._ela_source_free CF.test_loop
      CF.test_state_both)).released ∧
    (CF.final (CF._ela_source_free CF.test_loop
      CF.test_state_both)).src.timeout_source = NULL ∧
    (CF.final (CF._ela_source_free CF.test_loop CF.test_state_both)).trace
      = [] ∧
    (∀ (ctx : CF.cf_mainloop) (s : CF.State),
      CF.crashed (CF._ela_source_free ctx s) = true ∧
      (CF.final (CF._ela_source_free ctx s)).src.timeout_source = NULL ∧
      (CF.final (CF._ela_source_free ctx s)).w.sources = s.w.sources ∧
      (∀ rl : Ptr,
        (CF.final (CF._ela_source_free ctx s)).w.timers rl = s.w.timers rl ∨
        (CF.final (CF._ela_source_free ctx s)).w.timers rl
          = (s.w.timers rl).erase NULL) ∧
      ((CF.final (CF._ela_source_free ctx s)).released = s.released ∨
        (CF.final (CF._ela_source_free ctx s)).released
          = s.released ++ [s.src.fd_source]) ∧
      (CF.final (CF._ela_source_free ctx s)).trace = s.trace) ∧
    (∀ s : Libevent.State,
      (Libevent._ela_source_free s).src.event.inserted = false ∧
      (Libevent._ela_source_free s).src.event.timer = none ∧
      (Libevent._ela_source_free s).trace = s.trace ++ [HandlerEvent.free]) := by
  refine ⟨by decide, by decide, by decide, by decide, by decide, by decide,
    by decide, by decide, by decide, ?_, ?_⟩
  · intro ctx s
    rw [cf_source_free_crash]
    refine ⟨rfl, rfl, ?_, ?_, ?_, rfl⟩
    · simp only [CF.final]
      split_ifs <;> rfl
    · intro rl
      simp only [CF.final]
      split_ifs
      · simp only [CF.CFRunLoopRemoveTimer]
        by_cases hr : rl = ctx.runloop
        · subst hr
          rw [Function.update_same]
          exact Or.inr rfl
        · rw [Function.update_noteq hr]
          exact Or.inl rfl
      · exact Or.inl rfl
    · simp only [CF.final]
      split_ifs
      · exact Or.inr rfl
      · exact Or.inl (List.append_nil _)
  · intro s
    exact ⟨rfl, rfl, rfl⟩

/-- C16, the code at the failing input: the CoreFoundation scenario
`add; set_fd(5, READABLE); add` on a source whose first `set_fd` created the
run-loop source 12 and whose second `set_fd` created the run-loop source 22.
After the first `add` the run loop 7 contains 12; after the second `add` it
contains 12 and 22: the watch of the previous configuration is still
registered, with the read callback of its descriptor object 11 enabled, and
`remove` takes 22 away and leaves 12. -/
theorem cf_set_fd_stacks_run_loop_sources :
    CF.test_source_fd.fd_source = 12 ∧
    CF.test_source_fd2.fd_source = 22 ∧
    (CF._ela_cf_add 100 CF.test_world CF.test_loop
      CF.test_source_fd).2.sources 7 = [12] ∧
    CF.test_state_fd2.w.sources 7 = [12, 22] ∧
    CF.test_state_fd2.w.enabled 11 = CF.kCFFileDescriptorReadCallBack ∧
    (CF._ela_cf_remove CF.test_state_fd2.w CF.test_loop
      CF.test_source_fd2).2.sources 7 = [12] := by
  refine ⟨by decide, by decide, by decide, by decide, by decide, by decide⟩

/-- C17, the code at the failing input: `_ela_source_alloc` of the
CoreFoundation backend leaves the member `fd` at 0 and `_ela_cf_set_fd`
never stores its `fd` argument in it. After a successful
`set_fd(5, READABLE)` the member is still 0, and `fd_cf_callback` calls the
handler with descriptor 0, mask `READABLE` and the user data 51, and
returns. The libevent backend hands over descriptor 5 in the same scenario.
The mask built by `fd_cf_callback` has neither `ONCE` nor `TIMEOUT`. -/
theorem cf_fd_callback_passes_stale_fd :
    CF._ela_source_alloc true 31 41 51 = (0, some CF.test_source) ∧
    CF.test_source.fd = 0 ∧
    (∀ (new_fd_cf new_fd_source : Ptr) (src : CF.ela_event_source) (fd : Int)
        (ela_flags : Nat),
      (CF._ela_cf_set_fd new_fd_cf new_fd_source src fd ela_flags).2.fd
        = src.fd) ∧
    (CF._ela_cf_set_fd 21 22 CF.test_source_fd 5 ELA_EVENT_READABLE).1 = 0 ∧
    CF.test_source_fd2.fd = 0 ∧
    CF.crashed (CF.fd_cf_callback 101 7 CF.noop_handler
      CF.kCFFileDescriptorReadCallBack CF.test_state_fd2) = false ∧
    (CF.final (CF.fd_cf_callback 101 7 CF.noop_handler
      CF.kCFFileDescriptorReadCallBack CF.test_state_fd2)).trace
      = [HandlerEvent.call 0 ELA_EVENT_READABLE 51, HandlerEvent.ret] ∧
    (Libevent.dispatch_fd_ready true Libevent.noop_handler Libevent.EV_READ
      { src := (Libevent._ela_event_add true Libevent.test_loop
          (Libevent._ela_event_set_fd 0 77 Libevent.test_source 5
            ELA_EVENT_READABLE).2).2,
        trace := [] }).trace
      = [HandlerEvent.call 5 ELA_EVENT_READABLE 51, HandlerEvent.ret] ∧
    (∀ reason : Nat,
      CF.reason_mask reason &&& (ELA_EVENT_ONCE ||| ELA_EVENT_TIMEOUT) = 0) := by
  refine ⟨by decide, by decide, ?_, by decide, by decide, by decide, by decide,
    by decide, ?_⟩
  · intro new_fd_cf new_fd_source src fd ela_flags
    unfold CF._ela_cf_set_fd
    simp only
    split_ifs <;> rfl
  · intro reason
    unfold CF.reason_mask
    split_ifs <;> decide

end Ela
